import Mathlib

/-!
# Verification of the webscanner scan pipeline

Shallow embedding of the multi-check scan pipeline and scoring engine of the
webscanner edge function (`supabase` scan function).  Each analyzer is
modelled as a pure function of its own fetch outcome (the program performs one
independent fetch per analyzer); regular-expression checks from the source are
embedded as fuelled scanners over `List Char` that mirror the regex semantics
(non-overlapping, left-to-right global matching, greedy character classes).
JavaScript numbers are modelled as `ℤ`/`ℕ` where the program only ever
produces integers, and as `ℚ` for wall-clock durations and external API
scores; JavaScript truthiness (`x || y`) is modelled explicitly.
-/

namespace WebScanner

/-! ## JavaScript-style primitives -/

/-- Truthiness of a nullable string: `null`/`undefined` and `""` are falsy. -/
def jsTruthy : Option String → Bool
  | none => false
  | some s => s ≠ ""

/-- `x || d` for a possibly-undefined number: `undefined` and `0` fall back. -/
def jsOrNat (x : Option Nat) (d : Nat) : Nat :=
  match x with
  | none => d
  | some n => if n = 0 then d else n

/-- `x || d` for a possibly-undefined integer value. -/
def jsOrInt (x : Option ℤ) (d : ℤ) : ℤ :=
  match x with
  | none => d
  | some n => if n = 0 then d else n

/-- `x || d` for a possibly-undefined rational value. -/
def jsOrQ (x : Option ℚ) (d : ℚ) : ℚ :=
  match x with
  | none => d
  | some q => if q = 0 then d else q

/-- `x || d` for strings (empty string is falsy). -/
def jsOrStr (x : String) (d : String) : String :=
  if x = "" then d else x

/-- `Math.round`: round half toward positive infinity.  `Rat.floor` is used
rather than `Int.floor` so the definition evaluates in the kernel. -/
def jsRound (q : ℚ) : ℤ := Rat.floor (q + mkRat 1 2)

/-- ASCII whitespace recognised by the JavaScript `\s` class (ASCII part). -/
def isWs (c : Char) : Bool :=
  c = ' ' ∨ c = '\t' ∨ c = '\n' ∨ c = '\r' ∨ c = '\x0b' ∨ c = '\x0c'

/-- JavaScript `String.prototype.trim` on a character list. -/
def jsTrimL (l : List Char) : List Char :=
  ((l.dropWhile isWs).reverse.dropWhile isWs).reverse

/-- `trim` on strings. -/
def jsTrim (s : String) : String := String.mk (jsTrimL s.data)

/-- Case-insensitive prefix test; the pattern is given lowercase. -/
def startsWithCI : List Char → List Char → Bool
  | [], _ => true
  | _ :: _, [] => false
  | p :: ps, c :: cs => p == c.toLower && startsWithCI ps cs

/-- Case-sensitive prefix test. -/
def startsWithCS (p l : List Char) : Bool := p.isPrefixOf l

/-- Case-insensitive substring test (`String.prototype.includes` up to case). -/
def hasSubCI (p : List Char) : List Char → Bool
  | [] => p.isEmpty
  | c :: cs => startsWithCI p (c :: cs) || hasSubCI p cs

/-- Case-sensitive substring test (`String.prototype.includes`). -/
def hasSubCS (p : List Char) : List Char → Bool
  | [] => p.isEmpty
  | c :: cs => startsWithCS p (c :: cs) || hasSubCS p cs

/-- `includes` on strings (case-sensitive, as in JavaScript). -/
def strIncludes (body pat : String) : Bool := hasSubCS pat.data body.data

/-- Split a list at the first `'>'`: returns the characters strictly before it
and the suffix strictly after it.  This is the span consumed by a greedy
`[^>]*>` in a regular expression. -/
def upToGt : List Char → Option (List Char × List Char)
  | [] => none
  | c :: cs =>
    if c = '>' then some ([], cs)
    else
      match upToGt cs with
      | some (a, r) => some (c :: a, r)
      | none => none

/-- Does a `'>'` occur anywhere in the list? -/
def hasGt : List Char → Bool
  | [] => false
  | c :: cs => c = '>' || hasGt cs

/-- Does `mid` (lowercase pattern, matched case-insensitively) occur before
any `'>'`?  This is `pre[^>]*mid` continuation matching. -/
def beforeGtCI (mid : List Char) : List Char → Bool
  | [] => false
  | c :: cs =>
    if startsWithCI mid (c :: cs) then true
    else if c = '>' then false
    else beforeGtCI mid cs

/-- Like `beforeGtCI` but additionally requires some `'>'` after the match,
for patterns of shape `pre[^>]*mid[^>]*>`. -/
def beforeGtThenGtCI (mid : List Char) : List Char → Bool
  | [] => false
  | c :: cs =>
    if startsWithCI mid (c :: cs) then hasGt ((c :: cs).drop mid.length)
    else if c = '>' then false
    else beforeGtThenGtCI mid cs

/-! ## The fetch primitive and analyzer state -/

/-- Outcome of one analyzer-owned `fetch`: either the request rejected
(timeout, network failure) or a response with status, headers and body text.
Headers are a lookup from (lowercase) header name to value, `none` when the
header is absent. -/
inductive FetchOutcome where
  | failure (msg : String)
  | success (status : Nat) (headers : String → Option String) (body : String)

/-- `response.ok`: HTTP status in the 2xx range. -/
def respOk (status : Nat) : Bool := 200 ≤ status && status < 300

/-- The `status` tag carried by every pipeline section. -/
inductive Status where
  | pending
  | completed
  | failed
deriving DecidableEq, Repr

/-! ## Security analyzer -/

/-- A security issue: the objects pushed by `performSecurityScan`.  The
`message` field exists on the TypeScript type but is never set by the
analyzer. -/
structure SecIssue where
  severity : String
  category : String
  description : String
  message : Option String := none
deriving DecidableEq, Repr

def hstsIssue : SecIssue :=
  { severity := "high", category := "Security",
    description := "Missing HSTS header - site vulnerable to protocol downgrade attacks" }

def xctoIssue : SecIssue :=
  { severity := "medium", category := "Security",
    description := "Missing X-Content-Type-Options header - vulnerable to MIME sniffing" }

def xfoIssue : SecIssue :=
  { severity := "high", category := "Security",
    description := "Missing X-Frame-Options/CSP - vulnerable to clickjacking attacks" }

def cspIssue : SecIssue :=
  { severity := "medium", category := "Security",
    description := "No Content-Security-Policy - vulnerable to XSS attacks" }

def xssIssue : SecIssue :=
  { severity := "low", category := "Security",
    description := "Missing X-XSS-Protection header" }

def cookieIssue : SecIssue :=
  { severity := "high", category := "Security",
    description := "JavaScript cookie manipulation detected - potential XSS vector" }

/-- `/document\.cookie\s*=/gi` has at least one match: `document.cookie`
(case-insensitively) followed by optional whitespace and `=`. -/
def hasCookieAssign : List Char → Bool
  | [] => false
  | c :: cs =>
    (startsWithCI "document.cookie".data (c :: cs) &&
      match ((c :: cs).drop 15).dropWhile isWs with
      | '=' :: _ => true
      | _ => false) ||
    hasCookieAssign cs

/-- The issue list accumulated by the six issue-producing security checks, in
source order. -/
def securityIssues (headers : String → Option String) (body : String) : List SecIssue :=
  (if !jsTruthy (headers "strict-transport-security") then [hstsIssue] else []) ++
  (if !jsTruthy (headers "x-content-type-options") then [xctoIssue] else []) ++
  (if !jsTruthy (headers "x-frame-options") && !jsTruthy (headers "content-security-policy")
    then [xfoIssue] else []) ++
  (if !jsTruthy (headers "content-security-policy") then [cspIssue] else []) ++
  (if !jsTruthy (headers "x-xss-protection") then [xssIssue] else []) ++
  (if hasCookieAssign body.data then [cookieIssue] else [])

/-- Result shape of the security analyzer.  Fields are `Option` because the
orchestrator-level failure object carries none of them. -/
structure SecurityResults where
  status : Status
  error : Option String := none
  issues : Option (List SecIssue) := none
  checks_performed : Option Nat := none
  checks_passed : Option Nat := none
  https_enabled : Option Bool := none

/-- `performSecurityScan`: seven checks against the fetched response (six can
append an issue; the https flag is the seventh check); on fetch failure a
`Failed` result with zero counters. -/
def performSecurityScan (fetch : FetchOutcome) (url : String) : SecurityResults :=
  match fetch with
  | .failure msg =>
    { status := .failed, error := some msg, issues := some [],
      checks_performed := some 0, checks_passed := some 0, https_enabled := some false }
  | .success _ headers body =>
    let issues := securityIssues headers body
    { status := .completed, issues := some issues, checks_performed := some 7,
      checks_passed := some (7 - issues.length),
      https_enabled := some (url.startsWith "https") }

theorem securityIssues_length_le (headers : String → Option String) (body : String) :
    (securityIssues headers body).length ≤ 6 := by
  unfold securityIssues
  split_ifs <;> simp

theorem securityIssues_mem (headers : String → Option String) (body : String) :
    ∀ i ∈ securityIssues headers body,
      i ∈ [hstsIssue, xctoIssue, xfoIssue, cspIssue, xssIssue, cookieIssue] := by
  intro i hi
  unfold securityIssues at hi
  simp only [List.mem_append] at hi
  simp only [List.mem_cons, List.mem_singleton]
  rcases hi with ((((h | h) | h) | h) | h) | h <;>
    · split_ifs at h <;> simp_all

/-- C3: For every security scan whose result is Completed,
`checks_performed = 7` and `checks_passed = 7 - issues.length`, with at most 6
of the 7 checks able to append an issue (each emitted issue is one of the six
fixed issue objects; the https check never emits one); on fetch failure the
result is Failed with `checks_performed = 0` and `checks_passed = 0`. -/
theorem security_checks_spec :
    (∀ (st : Nat) (headers : String → Option String) (body url : String),
      (performSecurityScan (.success st headers body) url).status = .completed ∧
      (performSecurityScan (.success st headers body) url).checks_performed = some 7 ∧
      (performSecurityScan (.success st headers body) url).checks_passed =
        some (7 - (((performSecurityScan (.success st headers body) url).issues).getD []).length) ∧
      (((performSecurityScan (.success st headers body) url).issues).getD []).length ≤ 6 ∧
      (∀ i ∈ ((performSecurityScan (.success st headers body) url).issues).getD [],
        i ∈ [hstsIssue, xctoIssue, xfoIssue, cspIssue, xssIssue, cookieIssue])) ∧
    (∀ (msg url : String),
      (performSecurityScan (.failure msg) url).status = .failed ∧
      (performSecurityScan (.failure msg) url).checks_performed = some 0 ∧
      (performSecurityScan (.failure msg) url).checks_passed = some 0) := by
  constructor
  · intro st headers body url
    refine ⟨rfl, rfl, rfl, ?_, ?_⟩
    · simpa [performSecurityScan] using securityIssues_length_le headers body
    · simpa [performSecurityScan] using securityIssues_mem headers body
  · intro msg url
    exact ⟨rfl, rfl, rfl⟩

/-! ## Generic tag scanners

Fuelled scanners mirroring the non-overlapping, left-to-right global matching
of the JavaScript regular expressions: on a match the scanner resumes after
the matched span, on a failed match attempt it advances one character. -/

/-- Count matches of `p[^>]*>` (`p` lowercase, matched case-insensitively). -/
def countTagAux (p : List Char) : Nat → List Char → Nat
  | 0, _ => 0
  | _ + 1, [] => 0
  | fuel + 1, c :: cs =>
    if startsWithCI p (c :: cs) then
      match upToGt ((c :: cs).drop p.length) with
      | some (_, rest) => countTagAux p fuel rest + 1
      | none => countTagAux p fuel cs
    else countTagAux p fuel cs

def countTag (p : List Char) (l : List Char) : Nat := countTagAux p l.length l

/-- Count matches of `<h[1-6][^>]*>`. -/
def countHeadingsAux : Nat → List Char → Nat
  | 0, _ => 0
  | _ + 1, [] => 0
  | fuel + 1, c :: cs =>
    if startsWithCI "<h".data (c :: cs) then
      match (c :: cs).drop 2 with
      | d :: ds =>
        if '1' ≤ d ∧ d ≤ '6' then
          match upToGt ds with
          | some (_, rest) => countHeadingsAux fuel rest + 1
          | none => countHeadingsAux fuel cs
        else countHeadingsAux fuel cs
      | [] => countHeadingsAux fuel cs
    else countHeadingsAux fuel cs

def countHeadings (l : List Char) : Nat := countHeadingsAux l.length l

/-- Count matches of `<img(?![^>]*alt=)[^>]*>`: an `img` tag whose span up to
the closing `>` does not contain `alt=`. -/
def countImgNoAltAux : Nat → List Char → Nat
  | 0, _ => 0
  | _ + 1, [] => 0
  | fuel + 1, c :: cs =>
    if startsWithCI "<img".data (c :: cs) then
      match upToGt ((c :: cs).drop 4) with
      | some (inside, rest) =>
        if hasSubCI "alt=".data inside then countImgNoAltAux fuel cs
        else countImgNoAltAux fuel rest + 1
      | none => countImgNoAltAux fuel cs
    else countImgNoAltAux fuel cs

def countImgNoAlt (l : List Char) : Nat := countImgNoAltAux l.length l

/-- Count matches of `<button[^>]*>\s*<\/button>`. -/
def countEmptyButtonAux : Nat → List Char → Nat
  | 0, _ => 0
  | _ + 1, [] => 0
  | fuel + 1, c :: cs =>
    if startsWithCI "<button".data (c :: cs) then
      match upToGt ((c :: cs).drop 7) with
      | some (_, rest) =>
        let rest2 := rest.dropWhile isWs
        if startsWithCI "</button>".data rest2 then
          countEmptyButtonAux fuel (rest2.drop 9) + 1
        else countEmptyButtonAux fuel cs
      | none => countEmptyButtonAux fuel cs
    else countEmptyButtonAux fuel cs

def countEmptyButton (l : List Char) : Nat := countEmptyButtonAux l.length l

/-- Count matches of `<a[^>]*href=[^>]*>\s*<\/a>`. -/
def countEmptyLinkAux : Nat → List Char → Nat
  | 0, _ => 0
  | _ + 1, [] => 0
  | fuel + 1, c :: cs =>
    if startsWithCI "<a".data (c :: cs) then
      match upToGt ((c :: cs).drop 2) with
      | some (inside, rest) =>
        if hasSubCI "href=".data inside then
          let rest2 := rest.dropWhile isWs
          if startsWithCI "</a>".data rest2 then
            countEmptyLinkAux fuel (rest2.drop 4) + 1
          else countEmptyLinkAux fuel cs
        else countEmptyLinkAux fuel cs
      | none => countEmptyLinkAux fuel cs
    else countEmptyLinkAux fuel cs

def countEmptyLink (l : List Char) : Nat := countEmptyLinkAux l.length l

/-- `/<html[^>]*lang=/i` has a match. -/
def hasLangAttr : List Char → Bool
  | [] => false
  | c :: cs =>
    (startsWithCI "<html".data (c :: cs) && beforeGtCI "lang=".data ((c :: cs).drop 5)) ||
    hasLangAttr cs

def isQuoteChar (c : Char) : Bool := c = '"' ∨ c = '\''

/-- At this position: one of `#main`, `#content`, `#skip` followed by a
closing quote. -/
def skipTarget (l : List Char) : Bool :=
  (startsWithCI "#main".data l &&
    (match l.drop 5 with | q :: _ => isQuoteChar q | [] => false)) ||
  (startsWithCI "#content".data l &&
    (match l.drop 8 with | q :: _ => isQuoteChar q | [] => false)) ||
  (startsWithCI "#skip".data l &&
    (match l.drop 5 with | q :: _ => isQuoteChar q | [] => false))

/-- `href=["']#(main|content|skip)["']` occurs in this span. -/
def hasHrefSkipSeq : List Char → Bool
  | [] => false
  | c :: cs =>
    (startsWithCI "href=".data (c :: cs) &&
      (match (c :: cs).drop 5 with
       | q :: qs => isQuoteChar q && skipTarget qs
       | [] => false)) ||
    hasHrefSkipSeq cs

/-- `/<a[^>]*href=["']#(main|content|skip)["'][^>]*>/i` has a match. -/
def hasSkipLink : List Char → Bool
  | [] => false
  | c :: cs =>
    (startsWithCI "<a".data (c :: cs) &&
      (match upToGt ((c :: cs).drop 2) with
       | some (inside, _) => hasHrefSkipSeq inside
       | none => false)) ||
    hasSkipLink cs

/-- Count matches of `tabindex=["']-\d+["']`. -/
def countTabindexNegAux : Nat → List Char → Nat
  | 0, _ => 0
  | _ + 1, [] => 0
  | fuel + 1, c :: cs =>
    if startsWithCI "tabindex=".data (c :: cs) then
      match (c :: cs).drop 9 with
      | q :: '-' :: ds =>
        if isQuoteChar q then
          let digits := ds.takeWhile Char.isDigit
          let rest := ds.dropWhile Char.isDigit
          if digits ≠ [] then
            match rest with
            | q2 :: tail =>
              if isQuoteChar q2 then countTabindexNegAux fuel tail + 1
              else countTabindexNegAux fuel cs
            | [] => countTabindexNegAux fuel cs
          else countTabindexNegAux fuel cs
        else countTabindexNegAux fuel cs
      | _ => countTabindexNegAux fuel cs
    else countTabindexNegAux fuel cs

def countTabindexNeg (l : List Char) : Nat := countTabindexNegAux l.length l

/-! ## Accessibility analyzer -/

/-- An accessibility issue as pushed by `performAccessibilityScan`. -/
structure AccIssue where
  severity : String
  message : String
  count : Option Nat := none
  wcag : String
deriving DecidableEq, Repr

/-- The `severityPoints` lookup table. -/
def severityPointsMap (s : String) : Option Nat :=
  if s = "critical" then some 25
  else if s = "high" then some 15
  else if s = "medium" then some 8
  else if s = "low" then some 3
  else none

/-- `severityPoints[issue.severity] || 10`. -/
def severityDeduction (s : String) : Nat := jsOrNat (severityPointsMap s) 10

/-- `issues.reduce((sum, issue) => sum + (severityPoints[issue.severity] || 10), 0)`. -/
def totalDeduction (issues : List AccIssue) : Nat :=
  issues.foldl (fun sum i => sum + severityDeduction i.severity) 0

/-- Heuristic 1: images without an `alt` attribute. -/
def accImgIssues (html : List Char) : List AccIssue :=
  if countImgNoAlt html > 0 then
    [{ severity := "critical", count := some (countImgNoAlt html),
       message := toString (countImgNoAlt html) ++
         " images missing alt text - screen readers cannot describe images",
       wcag := "WCAG 2.1 Level A (1.1.1)" }] else []

/-- Heuristic 2: `<html>` without a `lang` attribute. -/
def accLangIssues (html : List Char) : List AccIssue :=
  if !hasLangAttr html then
    [{ severity := "high",
       message := "Missing lang attribute on html element - affects screen reader pronunciation",
       wcag := "WCAG 2.1 Level A (3.1.1)" }] else []

/-- Heuristic 3: empty `<button>` elements. -/
def accButtonIssues (html : List Char) : List AccIssue :=
  if countEmptyButton html > 0 then
    [{ severity := "critical", count := some (countEmptyButton html),
       message := toString (countEmptyButton html) ++
         " buttons without accessible text - screen readers cannot announce purpose",
       wcag := "WCAG 2.1 Level A (4.1.2)" }] else []

/-- Heuristic 4: `inputCount > labelCount + 2`. -/
def accInputIssues (html : List Char) : List AccIssue :=
  if countTag "<input".data html > countTag "<label".data html + 2 then
    [{ severity := "high",
       count := some (countTag "<input".data html - countTag "<label".data html),
       message := toString (countTag "<input".data html - countTag "<label".data html) ++
         " form inputs possibly without labels - difficult for screen reader users",
       wcag := "WCAG 2.1 Level A (1.3.1, 3.3.2)" }] else []

/-- Heuristic 5: H1 structure (no H1 among headings, or several H1s). -/
def accH1Issues (html : List Char) : List AccIssue :=
  if countTag "<h1".data html = 0 ∧ countHeadings html > 0 then
    [{ severity := "medium",
       message := "Page has no H1 heading - impacts document structure and navigation",
       wcag := "WCAG 2.1 Level A (1.3.1)" }]
  else if countTag "<h1".data html > 1 then
    [{ severity := "medium",
       message := "Page has " ++ toString (countTag "<h1".data html) ++
         " H1 headings - should typically have only one",
       wcag := "WCAG 2.1 Best Practice" }]
  else []

/-- Heuristic 6: anchors with `href` but empty inner text. -/
def accLinkIssues (html : List Char) : List AccIssue :=
  if countEmptyLink html > 0 then
    [{ severity := "high", count := some (countEmptyLink html),
       message := toString (countEmptyLink html) ++
         " links without text - screen readers cannot announce destination",
       wcag := "WCAG 2.1 Level A (2.4.4)" }] else []

/-- Heuristic 7: absence of a skip-navigation link. -/
def accSkipIssues (html : List Char) : List AccIssue :=
  if !hasSkipLink html then
    [{ severity := "low",
       message := "No skip navigation link found - keyboard users must tab through all navigation",
       wcag := "WCAG 2.1 Level A (2.4.1)" }] else []

/-- Heuristic 8: elements with a negative `tabindex`. -/
def accTabindexIssues (html : List Char) : List AccIssue :=
  if countTabindexNeg html > 0 then
    [{ severity := "medium", count := some (countTabindexNeg html),
       message := toString (countTabindexNeg html) ++
         " elements with negative tabindex - removes from keyboard navigation",
       wcag := "WCAG 2.1 Level A (2.1.1)" }] else []

/-- The eight accessibility heuristics over the body markup, in source
order. -/
def accessibilityIssues (body : String) : List AccIssue :=
  accImgIssues body.data ++ accLangIssues body.data ++ accButtonIssues body.data ++
  accInputIssues body.data ++ accH1Issues body.data ++ accLinkIssues body.data ++
  accSkipIssues body.data ++ accTabindexIssues body.data

/-- Result shape of the accessibility analyzer. -/
structure AccessibilityResults where
  status : Status
  error : Option String := none
  issues : Option (List AccIssue) := none
  total_issues : Option Nat := none
  score : Option ℤ := none
  wcag_level : Option String := none

/-- `performAccessibilityScan`: the eight heuristics, score
`max(0, 100 - Σ deduction)`, WCAG verdict from critical/high presence; a
`Failed` result with score 0 on fetch failure. -/
def performAccessibilityScan (fetch : FetchOutcome) : AccessibilityResults :=
  match fetch with
  | .failure msg =>
    { status := .failed, error := some msg, issues := some [], total_issues := some 0,
      score := some 0, wcag_level := some "Unable to determine" }
  | .success _ _ body =>
    let issues := accessibilityIssues body
    { status := .completed, issues := some issues, total_issues := some issues.length,
      score := some (max 0 (100 - (totalDeduction issues : ℤ))),
      wcag_level := some
        (if issues.any (fun i => i.severity = "critical" || i.severity = "high")
         then "Fails Level A" else "Passes Level A (potential AA issues)") }

/-- C5: For every accessibility scan whose result is Completed,
`score = max(0, 100 - Σ deduction)` over exactly the emitted issues with
deductions critical=25, high=15, medium=8, low=3 and 10 otherwise, and
`wcag_level = "Fails Level A"` iff some emitted issue is critical or high,
else `"Passes Level A (potential AA issues)"`; on fetch failure the result is
Failed with score 0 and `wcag_level = "Unable to determine"`. -/
theorem accessibility_score_spec :
    (∀ (st : Nat) (headers : String → Option String) (body : String),
      (performAccessibilityScan (.success st headers body)).status = .completed ∧
      (performAccessibilityScan (.success st headers body)).score =
        some (max 0 (100 -
          (totalDeduction (((performAccessibilityScan (.success st headers body)).issues).getD []) : ℤ))) ∧
      ((performAccessibilityScan (.success st headers body)).wcag_level = some "Fails Level A" ↔
        ∃ i ∈ ((performAccessibilityScan (.success st headers body)).issues).getD [],
          i.severity = "critical" ∨ i.severity = "high") ∧
      ((performAccessibilityScan (.success st headers body)).wcag_level =
          some "Passes Level A (potential AA issues)" ↔
        ¬ ∃ i ∈ ((performAccessibilityScan (.success st headers body)).issues).getD [],
          i.severity = "critical" ∨ i.severity = "high")) ∧
    (∀ msg : String,
      (performAccessibilityScan (.failure msg)).status = .failed ∧
      (performAccessibilityScan (.failure msg)).score = some 0 ∧
      (performAccessibilityScan (.failure msg)).wcag_level = some "Unable to determine") := by
  constructor
  · intro st headers body
    refine ⟨rfl, rfl, ?_, ?_⟩ <;>
    · simp only [performAccessibilityScan, Option.getD_some, List.any_eq_true, Bool.or_eq_true,
        decide_eq_true_eq]
      split_ifs with h
      · simp only [Option.some.injEq]
        constructor <;> intro h' <;> simp_all
      · simp only [Option.some.injEq]
        constructor <;> intro h' <;> simp_all
  · intro msg
    exact ⟨rfl, rfl, rfl⟩

/-! ## Performance analyzer -/

/-- `rel=["']stylesheet["']` occurs in this tag span. -/
def hasRelStylesheet : List Char → Bool
  | [] => false
  | c :: cs =>
    (startsWithCI "rel=".data (c :: cs) &&
      (match (c :: cs).drop 4 with
       | q :: qs =>
         isQuoteChar q && startsWithCI "stylesheet".data qs &&
           (match qs.drop 10 with | q2 :: _ => isQuoteChar q2 | [] => false)
       | [] => false)) ||
    hasRelStylesheet cs

/-- Count matches of `<link[^>]*rel=["']stylesheet["'][^>]*>`. -/
def countStylesheetAux : Nat → List Char → Nat
  | 0, _ => 0
  | _ + 1, [] => 0
  | fuel + 1, c :: cs =>
    if startsWithCI "<link".data (c :: cs) then
      match upToGt ((c :: cs).drop 5) with
      | some (inside, rest) =>
        if hasRelStylesheet inside then countStylesheetAux fuel rest + 1
        else countStylesheetAux fuel cs
      | none => countStylesheetAux fuel cs
    else countStylesheetAux fuel cs

def countStylesheet (l : List Char) : Nat := countStylesheetAux l.length l

/-- `headers.get("content-encoding")?.includes("gzip") ||
headers.get("content-encoding")?.includes("br")`. -/
def hasGzipHeader (headers : String → Option String) : Bool :=
  (match headers "content-encoding" with
   | some v => strIncludes v "gzip"
   | none => false) ||
  (match headers "content-encoding" with
   | some v => strIncludes v "br"
   | none => false)

structure LighthouseScores where
  performance : Option ℤ := none
  seo : Option ℤ := none
  accessibility : Option ℤ := none
  bestPractices : Option ℤ := none
deriving DecidableEq, Repr

structure CoreWebVitals where
  fcp : ℤ
  lcp : ℤ
  tti : ℤ
  tbt : ℤ
  cls : ℚ
  speedIndex : ℤ
deriving DecidableEq, Repr

structure Opportunity where
  title : String
  description : Option String := none
  score : ℚ
  savings : ℚ
deriving DecidableEq, Repr

structure Diagnostic where
  title : String
  description : Option String := none
  score : ℚ
deriving DecidableEq, Repr

/-- Result shape of the performance analyzer (both strategies and the failure
object populate subsets of these fields). -/
structure PerformanceResults where
  status : Status
  error : Option String := none
  score : Option ℤ := none
  load_time_ms : Option ℤ := none
  image_count : Option Nat := none
  scripts_count : Option Nat := none
  stylesheets_count : Option Nat := none
  compression_enabled : Option Bool := none
  caching_enabled : Option Bool := none
  lighthouse_scores : Option LighthouseScores := none
  core_web_vitals : Option CoreWebVitals := none
  source : Option String := none
  opportunities : Option (List Opportunity) := none
  diagnostics : Option (List Diagnostic) := none

/-- Outcome of the basic fallback's own fetch: the measured wall-clock load
time together with the response, or a thrown network failure. -/
inductive BasicOutcome where
  | failure (msg : String)
  | success (loadTime : ℚ) (headers : String → Option String) (body : String)

/-- The sequential score computation of the basic scan: start at 100,
subtract per signal, floor at 0. -/
def basicScore (loadTime : ℚ) (imageCount scriptCount stylesheetCount : Nat)
    (hasGzip hasCaching : Bool) : ℤ :=
  let score0 : ℤ := 100
  let score1 := if loadTime > 3000 then score0 - 30 else if loadTime > 1500 then score0 - 15 else score0
  let score2 := if imageCount > 20 then score1 - 10 else score1
  let score3 := if scriptCount > 15 then score2 - 10 else score2
  let score4 := if stylesheetCount > 5 then score3 - 5 else score3
  let score5 := if !hasGzip then score4 - 15 else score4
  let score6 := if !hasCaching then score5 - 10 else score5
  max 0 score6

/-- `performBasicPerformanceScan`: heuristic score from load latency,
resource counts and cache/compression headers. -/
def performBasicPerformanceScan (loadTime : ℚ) (headers : String → Option String)
    (body : String) : PerformanceResults :=
  let html := body.data
  let imageCount := countTag "<img".data html
  let scriptCount := countTag "<script".data html
  let stylesheetCount := countStylesheet html
  let hasGzip := hasGzipHeader headers
  let hasCaching := jsTruthy (headers "cache-control")
  let score := basicScore loadTime imageCount scriptCount stylesheetCount hasGzip hasCaching
  { status := .completed, score := some score, load_time_ms := some (jsRound loadTime),
    image_count := some imageCount, scripts_count := some scriptCount,
    stylesheets_count := some stylesheetCount, compression_enabled := some hasGzip,
    caching_enabled := some hasCaching,
    lighthouse_scores := some { performance := some score, seo := some (max 0 (score - 10)) },
    source := some "basic-scan" }

/-- One audit object of the external page-speed response, reduced to the
fields the function reads. -/
structure PageSpeedAudit where
  title : Option String := none
  description : Option String := none
  score : Option ℚ := none
  savingsMs : Option ℚ := none
  itemsLength : Option Nat := none

/-- `audits['metrics']?.details?.items?.[0]`. -/
structure PageSpeedMetrics where
  firstContentfulPaint : Option ℚ := none
  largestContentfulPaint : Option ℚ := none
  interactive : Option ℚ := none
  totalBlockingTime : Option ℚ := none
  cumulativeLayoutShift : Option ℚ := none
  speedIndex : Option ℚ := none
  observedLoad : Option ℚ := none

/-- The parsed `lighthouseResult` of a successful page-speed API call. -/
structure PageSpeedData where
  catPerformance : Option ℚ := none
  catAccessibility : Option ℚ := none
  catBestPractices : Option ℚ := none
  catSeo : Option ℚ := none
  metrics : Option PageSpeedMetrics := none
  audits : String → Option PageSpeedAudit := fun _ => none

/-- Outcome of the external page-speed API call (non-OK statuses and parse
failures are thrown inside the function, hence `failure`). -/
inductive GoogleOutcome where
  | failure (msg : String)
  | success (data : PageSpeedData)

/-- `x || d` for a possibly-undefined string with a string default. -/
def jsOrStrOpt (x : Option String) (d : String) : String :=
  match x with
  | none => d
  | some s => if s = "" then d else s

def opportunityAuditIds : List String :=
  ["render-blocking-resources", "unused-css-rules", "unused-javascript",
   "modern-image-formats", "offscreen-images", "minify-css", "minify-javascript",
   "reduce-unused-code"]

def extractPageSpeedOpportunities (audits : String → Option PageSpeedAudit) :
    List Opportunity :=
  (opportunityAuditIds.filterMap (fun auditId =>
    match audits auditId with
    | some audit =>
      match audit.score with
      | some s =>
        if s < 1 then
          some { title := jsOrStrOpt audit.title auditId, description := audit.description,
                 score := s, savings := audit.savingsMs.getD 0 }
        else none
      | none => none
    | none => none)).take 5

def diagnosticAuditIds : List String :=
  ["dom-size", "total-byte-weight", "mainthread-work-breakdown", "bootup-time",
   "duplicated-javascript"]

def extractPageSpeedDiagnostics (audits : String → Option PageSpeedAudit) :
    List Diagnostic :=
  (diagnosticAuditIds.filterMap (fun auditId =>
    match audits auditId with
    | some audit =>
      match audit.score with
      | some s =>
        if s < 1 then
          some { title := jsOrStrOpt audit.title auditId, description := audit.description,
                 score := s }
        else none
      | none => none
    | none => none)).take 5

/-- The Completed result built from a successful page-speed API response. -/
def googlePageSpeedResult (d : PageSpeedData) : PerformanceResults :=
  let performanceScore := jsRound (jsOrQ d.catPerformance 0 * 100)
  let accessibilityScore := jsRound (jsOrQ d.catAccessibility 0 * 100)
  let bestPracticesScore := jsRound (jsOrQ d.catBestPractices 0 * 100)
  let seoScore := jsRound (jsOrQ d.catSeo 0 * 100)
  let m := d.metrics.getD {}
  { status := .completed, score := some performanceScore,
    load_time_ms := some (jsRound (jsOrQ m.observedLoad 0)),
    lighthouse_scores := some
      { performance := some performanceScore, accessibility := some accessibilityScore,
        bestPractices := some bestPracticesScore, seo := some seoScore },
    core_web_vitals := some
      { fcp := jsRound (jsOrQ m.firstContentfulPaint 0),
        lcp := jsRound (jsOrQ m.largestContentfulPaint 0),
        tti := jsRound (jsOrQ m.interactive 0),
        tbt := jsRound (jsOrQ m.totalBlockingTime 0),
        cls := (jsRound (jsOrQ m.cumulativeLayoutShift 0 * 1000) : ℚ) / 1000,
        speedIndex := jsRound (jsOrQ m.speedIndex 0) },
    image_count := some (jsOrNat (Option.bind (d.audits "uses-optimized-images")
      PageSpeedAudit.itemsLength) 0),
    compression_enabled := some
      (match d.audits "uses-text-compression" with
       | some a => a.score = some 1
       | none => false),
    caching_enabled := some
      (match d.audits "uses-long-cache-ttl" with
       | some a => match a.score with
         | some s => s > mkRat 1 2
         | none => false
       | none => false),
    opportunities := some (extractPageSpeedOpportunities d.audits),
    diagnostics := some (extractPageSpeedDiagnostics d.audits),
    source := some "google-pagespeed" }

/-- The Failed object returned by `performPerformanceScan`'s own catch. -/
def perfFailResult (msg : String) : PerformanceResults :=
  { status := .failed, error := some msg, score := some 0, load_time_ms := some 0 }

/-- `performPerformanceScan`: external page-speed strategy when an API key is
configured, falling back to the basic scan on missing key or API failure; a
thrown basic-scan fetch reaches the outer catch. -/
def performPerformanceScan (apiKey : Option String) (g : GoogleOutcome)
    (b : BasicOutcome) : PerformanceResults :=
  if jsTruthy apiKey then
    match g with
    | .success d => googlePageSpeedResult d
    | .failure _ =>
      match b with
      | .success lt headers body => performBasicPerformanceScan lt headers body
      | .failure msg => perfFailResult msg
  else
    match b with
    | .success lt headers body => performBasicPerformanceScan lt headers body
    | .failure msg => perfFailResult msg

/-- Summed deduction form of the basic score, over abstract signal values. -/
def basicDeductions (loadTime : ℚ) (imageCount scriptCount stylesheetCount : Nat)
    (hasGzip hasCaching : Bool) : ℤ :=
  (if loadTime > 3000 then 30 else if loadTime > 1500 then 15 else 0) +
  (if imageCount > 20 then 10 else 0) +
  (if scriptCount > 15 then 10 else 0) +
  (if stylesheetCount > 5 then 5 else 0) +
  (if !hasGzip then 15 else 0) +
  (if !hasCaching then 10 else 0)

/-- Total deduction of the basic scan as the code computes it (the
cache-control deduction fires when the header is absent **or empty**, because
the source tests `!!headers.get("cache-control")`). -/
def basicDeductionTotal (loadTime : ℚ) (headers : String → Option String)
    (body : String) : ℤ :=
  basicDeductions loadTime (countTag "<img".data body.data)
    (countTag "<script".data body.data) (countStylesheet body.data)
    (hasGzipHeader headers) (jsTruthy (headers "cache-control"))

/-- The deduction total exactly as C6 words it: the 10-point caching
deduction applies only when no cache-control header is present at all. -/
def claimedBasicDeductionTotal (loadTime : ℚ) (headers : String → Option String)
    (body : String) : ℤ :=
  (if loadTime > 3000 then 30 else if loadTime > 1500 then 15 else 0) +
  (if countTag "<img".data body.data > 20 then 10 else 0) +
  (if countTag "<script".data body.data > 15 then 10 else 0) +
  (if countStylesheet body.data > 5 then 5 else 0) +
  (if !hasGzipHeader headers then 15 else 0) +
  (if (headers "cache-control").isNone then 10 else 0)

theorem basicScore_eq_deductions (loadTime : ℚ)
    (imageCount scriptCount stylesheetCount : Nat) (hasGzip hasCaching : Bool) :
    basicScore loadTime imageCount scriptCount stylesheetCount hasGzip hasCaching =
      max 0 (100 - basicDeductions loadTime imageCount scriptCount stylesheetCount
        hasGzip hasCaching) := by
  unfold basicScore basicDeductions
  split_ifs <;> norm_num

theorem performBasicPerformanceScan_score (loadTime : ℚ)
    (headers : String → Option String) (body : String) :
    (performBasicPerformanceScan loadTime headers body).score =
      some (max 0 (100 - basicDeductionTotal loadTime headers body)) := by
  have h := basicScore_eq_deductions loadTime (countTag "<img".data body.data)
    (countTag "<script".data body.data) (countStylesheet body.data)
    (hasGzipHeader headers) (jsTruthy (headers "cache-control"))
  simp only [performBasicPerformanceScan, basicDeductionTotal, h]

theorem performBasicPerformanceScan_lighthouse (loadTime : ℚ)
    (headers : String → Option String) (body : String) :
    (performBasicPerformanceScan loadTime headers body).lighthouse_scores =
      some { performance := some (max 0 (100 - basicDeductionTotal loadTime headers body)),
             seo := some (max 0 (max 0 (100 - basicDeductionTotal loadTime headers body) - 10)) } := by
  have h := basicScore_eq_deductions loadTime (countTag "<img".data body.data)
    (countTag "<script".data body.data) (countStylesheet body.data)
    (hasGzipHeader headers) (jsTruthy (headers "cache-control"))
  simp only [performBasicPerformanceScan, basicDeductionTotal, h]

/-- C6 (amended): whenever no page-speed API key is configured (or the
external API call fails) and the fallback fetch itself succeeds, the
performance analyzer completes via the basic fallback with
`source = "basic-scan"` and `score = max(0, 100 - d)`, where `d` adds 30 if
load time > 3000 ms (else 15 if > 1500 ms), 10 if more than 20 `<img>` tags,
10 if more than 15 `<script>` tags, 5 if more than 5 stylesheet `<link>`
tags, 15 if the content-encoding header indicates neither gzip nor brotli,
and 10 if the cache-control header is absent **or empty**; the result's
`lighthouse_scores` equal `{performance: score, seo: max(0, score - 10)}`. -/
theorem performance_basic_fallback_spec (apiKey : Option String) (g : GoogleOutcome)
    (loadTime : ℚ) (headers : String → Option String) (body : String)
    (h : jsTruthy apiKey = false ∨ ∃ m, g = GoogleOutcome.failure m) :
    (performPerformanceScan apiKey g (.success loadTime headers body)).status = .completed ∧
    (performPerformanceScan apiKey g (.success loadTime headers body)).source =
      some "basic-scan" ∧
    (performPerformanceScan apiKey g (.success loadTime headers body)).score =
      some (max 0 (100 - basicDeductionTotal loadTime headers body)) ∧
    (performPerformanceScan apiKey g (.success loadTime headers body)).lighthouse_scores =
      some { performance := some (max 0 (100 - basicDeductionTotal loadTime headers body)),
             seo := some (max 0 (max 0 (100 - basicDeductionTotal loadTime headers body) - 10)) } := by
  have hbasic : performPerformanceScan apiKey g (.success loadTime headers body) =
      performBasicPerformanceScan loadTime headers body := by
    rcases h with h | ⟨m, rfl⟩
    · simp [performPerformanceScan, h]
    · by_cases hk : jsTruthy apiKey <;> simp [performPerformanceScan, hk]
  rw [hbasic]
  exact ⟨rfl, rfl, performBasicPerformanceScan_score loadTime headers body,
    performBasicPerformanceScan_lighthouse loadTime headers body⟩

/-- Witness for the amended C6 theorem at a concrete input. -/
theorem performance_basic_fallback_witness :
    (jsTruthy (none : Option String) = false ∨
      ∃ m, GoogleOutcome.failure "err" = GoogleOutcome.failure m) ∧
    ((performPerformanceScan none (GoogleOutcome.failure "err")
        (.success 100 (fun _ => none) "")).status = .completed ∧
     (performPerformanceScan none (GoogleOutcome.failure "err")
        (.success 100 (fun _ => none) "")).source = some "basic-scan" ∧
     (performPerformanceScan none (GoogleOutcome.failure "err")
        (.success 100 (fun _ => none) "")).score =
       some (max 0 (100 - basicDeductionTotal 100 (fun _ => none) "")) ∧
     (performPerformanceScan none (GoogleOutcome.failure "err")
        (.success 100 (fun _ => none) "")).lighthouse_scores =
       some { performance := some (max 0 (100 - basicDeductionTotal 100 (fun _ => none) "")),
              seo := some (max 0 (max 0 (100 - basicDeductionTotal 100 (fun _ => none) "") - 10)) }) :=
  ⟨Or.inl rfl, performance_basic_fallback_spec none (GoogleOutcome.failure "err")
    100 (fun _ => none) "" (Or.inl rfl)⟩

/-- Headers for the C6 counterexample: gzip compression enabled and a
cache-control header that is present but empty. -/
def c6Headers : String → Option String := fun k =>
  if k = "content-encoding" then some "gzip"
  else if k = "cache-control" then some "" else none

/-- C6 counterexample: with an empty-valued cache-control header present, the
code still deducts the 10 caching points (score 90), while the claim's
formula — which deducts only when no cache-control header is present —
yields 100; so the claim as stated is false at this input. -/
theorem performance_cachecontrol_counterexample :
    (performPerformanceScan none (GoogleOutcome.failure "err")
        (.success 100 c6Headers "")).score = some 90 ∧
    max 0 (100 - claimedBasicDeductionTotal 100 c6Headers "") = 100 := by
  constructor
  · decide
  · decide

/-! ## Markup (E2E) analyzer -/

/-- Suffix after the first quote character (single or double). -/
def afterQuote : List Char → Option (List Char)
  | [] => none
  | c :: cs => if isQuoteChar c then some cs else afterQuote cs

/-- Suffix after the first `'>'`. -/
def afterGt : List Char → Option (List Char)
  | [] => none
  | c :: cs => if c = '>' then some cs else afterGt cs

/-- Inside an `<a` tag: find `href=` before the first `'>'`, then a quote and
its closing quote (the quoted value may contain `'>'`).  Returns the suffix
after the closing quote. -/
def hrefQuotedScan : List Char → Option (List Char)
  | [] => none
  | c :: cs =>
    if c = '>' then none
    else if startsWithCI "href=".data (c :: cs) then
      match (c :: cs).drop 5 with
      | q :: qs => if isQuoteChar q then afterQuote qs else hrefQuotedScan cs
      | [] => none
    else hrefQuotedScan cs

/-- Count matches of `<a[^>]*href=["']([^"']*)["'][^>]*>`. -/
def countLinkAux : Nat → List Char → Nat
  | 0, _ => 0
  | _ + 1, [] => 0
  | fuel + 1, c :: cs =>
    if startsWithCI "<a".data (c :: cs) then
      match hrefQuotedScan ((c :: cs).drop 2) with
      | some rest =>
        match afterGt rest with
        | some rest2 => countLinkAux fuel rest2 + 1
        | none => countLinkAux fuel cs
      | none => countLinkAux fuel cs
    else countLinkAux fuel cs

def countLink (l : List Char) : Nat := countLinkAux l.length l

/-- Split at the first `</button>` (case-insensitive): the content before it
and the suffix after it. -/
def findCloseButton : List Char → Option (List Char × List Char)
  | [] => none
  | c :: cs =>
    if startsWithCI "</button>".data (c :: cs) then some ([], (c :: cs).drop 9)
    else
      match findCloseButton cs with
      | some (a, r) => some (c :: a, r)
      | none => none

/-- The full matched substrings of `/<button[^>]*>([\s\S]*?)<\/button>/gi`,
in original case and match order. -/
def buttonMatchesAux : Nat → List Char → List (List Char)
  | 0, _ => []
  | _ + 1, [] => []
  | fuel + 1, c :: cs =>
    if startsWithCI "<button".data (c :: cs) then
      match upToGt ((c :: cs).drop 7) with
      | some (inside, rest) =>
        match findCloseButton rest with
        | some (content, rest2) =>
          ((c :: cs).take (7 + inside.length + 1 + content.length + 9)) ::
            buttonMatchesAux fuel rest2
        | none => buttonMatchesAux fuel cs
      | none => buttonMatchesAux fuel cs
    else buttonMatchesAux fuel cs

def buttonMatches (l : List Char) : List (List Char) := buttonMatchesAux l.length l

/-- `btn.replace(/<[^>]*>/g, '')`. -/
def stripTagsAux : Nat → List Char → List Char
  | 0, l => l
  | _ + 1, [] => []
  | fuel + 1, c :: cs =>
    if c = '<' then
      match afterGt cs with
      | some rest => stripTagsAux fuel rest
      | none => c :: cs
    else c :: stripTagsAux fuel cs

def stripTags (l : List Char) : List Char := stripTagsAux l.length l

/-- Result shape of the markup analyzer. -/
structure E2EResults where
  status : Status
  error : Option String := none
  buttons_found : Option Nat := none
  links_found : Option Nat := none
  forms_found : Option Nat := none
  primary_actions : Option (List String) := none

/-- What the runtime's structured HTML parse of the body yields, when a
`DOMParser` is available: button text contents and link/form counts.  `none`
models a runtime without `DOMParser` (the regex fallback path). -/
structure DomParse where
  buttonTexts : List String
  linkCount : Nat
  formCount : Nat

/-- The zeroed Failed object of the markup analyzer. -/
def e2eFailResult (msg : String) : E2EResults :=
  { status := .failed, error := some msg, buttons_found := some 0, links_found := some 0,
    forms_found := some 0, primary_actions := some [] }

/-- `performE2EScan`: DOM-based counting when available, else the regex
fallback; fetch failures and non-OK statuses yield the zeroed Failed
object. -/
def performE2EScan (fetch : FetchOutcome) (dom : Option DomParse) : E2EResults :=
  match fetch with
  | .failure msg => e2eFailResult msg
  | .success st _ body =>
    if !respOk st then e2eFailResult ("HTTP " ++ toString st)
    else
      match dom with
      | some d =>
        { status := .completed, buttons_found := some d.buttonTexts.length,
          links_found := some d.linkCount, forms_found := some d.formCount,
          primary_actions :=
            some (((d.buttonTexts.map jsTrim).filter (fun s => s ≠ "")).take 5) }
      | none =>
        let html := body.data
        let btns := buttonMatches html
        { status := .completed, buttons_found := some btns.length,
          links_found := some (countLink html),
          forms_found := some (countTag "<form".data html),
          primary_actions :=
            some (((btns.take 5).map
              (fun b => String.mk (jsTrimL (stripTags b)))).filter (fun s => s ≠ "")) }

theorem jsTrimL_eq_rdropWhile (l : List Char) :
    jsTrimL l = List.rdropWhile isWs (List.dropWhile isWs l) := by
  simp [jsTrimL, List.rdropWhile]

theorem jsTrimL_idem (l : List Char) : jsTrimL (jsTrimL l) = jsTrimL l := by
  rw [jsTrimL_eq_rdropWhile, jsTrimL_eq_rdropWhile]
  have hA : List.dropWhile isWs (List.rdropWhile isWs (List.dropWhile isWs l)) =
      List.rdropWhile isWs (List.dropWhile isWs l) := by
    rw [List.dropWhile_eq_self_iff]
    intro hl
    have hpre := List.rdropWhile_prefix isWs (List.dropWhile isWs l)
    have hlen : 0 < (List.dropWhile isWs l).length :=
      lt_of_lt_of_le hl hpre.length_le
    have hget := hpre.getElem (n := 0) hl
    simpa [List.get_eq_getElem, hget] using List.dropWhile_get_zero_not isWs l hlen
  rw [hA, List.rdropWhile_idempotent]

theorem jsTrim_idem (s : String) : jsTrim (jsTrim s) = jsTrim s := by
  simp [jsTrim, jsTrimL_idem]

/-- C7: For every fetch that fails or returns a non-OK HTTP status, the
markup analyzer returns Failed with zeroed counts, empty `primary_actions`
and an error string (a non-OK status is never Completed-with-zero); when
Completed, `primary_actions` holds at most 5 non-empty trimmed button
texts. -/
theorem e2e_failure_and_actions_spec :
    (∀ (msg : String) (dom : Option DomParse),
      performE2EScan (.failure msg) dom = e2eFailResult msg) ∧
    (∀ (st : Nat) (headers : String → Option String) (body : String) (dom : Option DomParse),
      respOk st = false →
        performE2EScan (.success st headers body) dom =
          e2eFailResult ("HTTP " ++ toString st)) ∧
    (∀ (fetch : FetchOutcome) (dom : Option DomParse),
      (performE2EScan fetch dom).status = .completed →
        ∃ acts, (performE2EScan fetch dom).primary_actions = some acts ∧
          acts.length ≤ 5 ∧ ∀ a ∈ acts, a ≠ "" ∧ jsTrim a = a) := by
  refine ⟨fun msg dom => rfl, fun st headers body dom h => by simp [performE2EScan, h], ?_⟩
  intro fetch dom hc
  match fetch with
  | .failure msg => simp [performE2EScan, e2eFailResult] at hc
  | .success st headers body =>
    by_cases hok : respOk st
    · have hok' : (!respOk st) = false := by simp [hok]
      match dom with
      | some d =>
        refine ⟨((d.buttonTexts.map jsTrim).filter (fun s => s ≠ "")).take 5,
          by simp [performE2EScan, hok'], ?_, ?_⟩
        · exact List.length_take_le ..
        · intro a ha
          have ha1 := List.take_subset 5 _ ha
          have ha2 := List.mem_filter.mp ha1
          obtain ⟨b, _, rfl⟩ := List.mem_map.mp ha2.1
          exact ⟨by simpa using ha2.2, jsTrim_idem b⟩
      | none =>
        refine ⟨(((buttonMatches body.data).take 5).map
            (fun b => String.mk (jsTrimL (stripTags b)))).filter (fun s => s ≠ ""),
          by simp [performE2EScan, hok'], ?_, ?_⟩
        · refine le_trans (List.length_filter_le _ _) ?_
          rw [List.length_map]
          exact List.length_take_le ..
        · intro a ha
          have ha2 := List.mem_filter.mp ha
          obtain ⟨b, _, rfl⟩ := List.mem_map.mp ha2.1
          refine ⟨by simpa using ha2.2, ?_⟩
          show jsTrim (String.mk (jsTrimL (stripTags b))) = String.mk (jsTrimL (stripTags b))
          simp only [jsTrim]
          exact congrArg String.mk (jsTrimL_idem (stripTags b))
    · simp [performE2EScan, hok, e2eFailResult] at hc

/-! ## API-surface analyzer -/

/-- At a quote char: the quoted literal of `["']([^"']+)["']`, returning the
(non-empty) literal and the suffix after the closing quote. -/
def quotedLit (l : List Char) : Option (List Char × List Char) :=
  match l with
  | q :: qs =>
    if isQuoteChar q then
      let lit := qs.takeWhile (fun c => !isQuoteChar c)
      let rest := qs.dropWhile (fun c => !isQuoteChar c)
      if lit ≠ [] then
        match rest with
        | q2 :: tail => if isQuoteChar q2 then some (lit, tail) else none
        | [] => none
      else none
    else none
  | [] => none

/-- The first-group literals of the global matches of
`fetch\(["']([^"']+)["']|axios\.[a-z]+\(["']([^"']+)["']|\$\.ajax\(["']([^"']+)["']`. -/
def apiScanAux : Nat → List Char → List (List Char)
  | 0, _ => []
  | _ + 1, [] => []
  | fuel + 1, c :: cs =>
    if startsWithCS "fetch(".data (c :: cs) then
      match quotedLit ((c :: cs).drop 6) with
      | some (lit, rest) => lit :: apiScanAux fuel rest
      | none => apiScanAux fuel cs
    else if startsWithCS "axios.".data (c :: cs) then
      let after := (c :: cs).drop 6
      let verb := after.takeWhile (fun d => 'a' ≤ d && d ≤ 'z')
      let rest0 := after.dropWhile (fun d => 'a' ≤ d && d ≤ 'z')
      if verb ≠ [] then
        match rest0 with
        | '(' :: r1 =>
          match quotedLit r1 with
          | some (lit, rest) => lit :: apiScanAux fuel rest
          | none => apiScanAux fuel cs
        | _ => apiScanAux fuel cs
      else apiScanAux fuel cs
    else if startsWithCS "$.ajax(".data (c :: cs) then
      match quotedLit ((c :: cs).drop 7) with
      | some (lit, rest) => lit :: apiScanAux fuel rest
      | none => apiScanAux fuel cs
    else apiScanAux fuel cs

structure Endpoint where
  method : String
  path : String
  status : Nat
deriving DecidableEq, Repr

structure APIResults where
  status : Status
  error : Option String := none
  endpoints_detected : Option Nat := none
  endpoints : Option (List Endpoint) := none

/-- The endpoints pushed by `performAPIScan`: the first quoted literal of
each match, kept when it starts with `/`. -/
def apiEndpoints (body : String) : List Endpoint :=
  (apiScanAux body.data.length body.data).filterMap (fun lit =>
    let path := String.mk lit
    if path.startsWith "/" then some { method := "GET", path := path, status := 0 }
    else none)

def performAPIScan (fetch : FetchOutcome) : APIResults :=
  match fetch with
  | .failure msg =>
    { status := .failed, error := some msg, endpoints_detected := some 0,
      endpoints := some [] }
  | .success _ _ body =>
    let endpoints := apiEndpoints body
    { status := .completed, endpoints_detected := some endpoints.length,
      endpoints := some (endpoints.take 10) }

/-! ## Tech-stack analyzer -/

structure TechSignature where
  name : String
  confidence : String
  version : Option String := none
  category : String
deriving DecidableEq, Repr

structure TechStackResult where
  status : Status
  error : Option String := none
  detected : Option (List TechSignature) := none
  total_detected : Option Nat := none

/-- `/"buildId":"([^"]+)"/` has a match. -/
def hasBuildId : List Char → Bool
  | [] => false
  | c :: cs =>
    (startsWithCS "\"buildId\":\"".data (c :: cs) &&
      (let after := (c :: cs).drop 11
       after.takeWhile (fun d => d ≠ '"') ≠ [] &&
         after.dropWhile (fun d => d ≠ '"') ≠ [])) ||
    hasBuildId cs

/-- `/<[^>]*ng-[^>]*>/i` has a match. -/
def hasNgAttr : List Char → Bool
  | [] => false
  | c :: cs => (c = '<' && beforeGtThenGtCI "ng-".data cs) || hasNgAttr cs

/-- First capture of `/ng-version="([^"]+)"/`. -/
def ngVersionCapture : List Char → Option String
  | [] => none
  | c :: cs =>
    if startsWithCS "ng-version=\"".data (c :: cs) then
      let after := (c :: cs).drop 12
      let lit := after.takeWhile (fun d => d ≠ '"')
      if lit ≠ [] ∧ after.dropWhile (fun d => d ≠ '"') ≠ [] then some (String.mk lit)
      else ngVersionCapture cs
    else ngVersionCapture cs

/-- First capture of `wp-content/themes/[^/]+/([0-9.]+)`. -/
def wpThemeVersion : List Char → Option String
  | [] => none
  | c :: cs =>
    if startsWithCS "wp-content/themes/".data (c :: cs) then
      let after := (c :: cs).drop 18
      let seg := after.takeWhile (fun d => d ≠ '/')
      let rest := after.dropWhile (fun d => d ≠ '/')
      if seg ≠ [] then
        match rest with
        | '/' :: r2 =>
          let digits := r2.takeWhile (fun d => d.isDigit || d = '.')
          if digits ≠ [] then some (String.mk digits) else wpThemeVersion cs
        | _ => wpThemeVersion cs
      else wpThemeVersion cs
    else wpThemeVersion cs

/-- Inside a `<script` tag (before its `'>'`): `src=["'][^"']*svelte[^"']*["']`. -/
def svelteSrcSeq : List Char → Bool
  | [] => false
  | c :: cs =>
    if startsWithCI "src=".data (c :: cs) then
      match (c :: cs).drop 4 with
      | q :: qs =>
        if isQuoteChar q then
          let val := qs.takeWhile (fun d => !isQuoteChar d)
          let rest := qs.dropWhile (fun d => !isQuoteChar d)
          (hasSubCI "svelte".data val && rest ≠ []) || svelteSrcSeq cs
        else svelteSrcSeq cs
      | [] => false
    else if c = '>' then false
    else svelteSrcSeq cs

/-- `/<script[^>]*src=["'][^"']*svelte[^"']*["']/i` has a match. -/
def hasSvelteScript : List Char → Bool
  | [] => false
  | c :: cs =>
    (startsWithCI "<script".data (c :: cs) && svelteSrcSeq ((c :: cs).drop 7)) ||
    hasSvelteScript cs

/-- Greedy `\d+\.\d+\.\d+` at this position. -/
def parseSemver (l : List Char) : Option (List Char) :=
  let d1 := l.takeWhile Char.isDigit
  let r1 := l.dropWhile Char.isDigit
  if d1 ≠ [] then
    match r1 with
    | '.' :: r2 =>
      let d2 := r2.takeWhile Char.isDigit
      let r3 := r2.dropWhile Char.isDigit
      if d2 ≠ [] then
        match r3 with
        | '.' :: r4 =>
          let d3 := r4.takeWhile Char.isDigit
          if d3 ≠ [] then some (d1 ++ '.' :: d2 ++ '.' :: d3) else none
        | _ => none
      else none
    | _ => none
  else none

/-- First capture of `/jquery[.-]?(\d+\.\d+\.\d+)/i`. -/
def jqueryVersionCapture : List Char → Option String
  | [] => none
  | c :: cs =>
    if startsWithCI "jquery".data (c :: cs) then
      let after := (c :: cs).drop 6
      let res :=
        match after with
        | d :: ds => if d = '.' ∨ d = '-' then parseSemver ds else parseSemver after
        | [] => none
      match res with
      | some v => some (String.mk v)
      | none => jqueryVersionCapture cs
    else jqueryVersionCapture cs

def isWordChar (c : Char) : Bool := c.isAlphanum || c = '_'

/-- At this position: one of the alternatives, then `[^"']*["']`. -/
def classAltAt (alts : List (List Char)) (l : List Char) : Bool :=
  alts.any (fun w =>
    startsWithCS w l && (l.drop w.length).dropWhile (fun d => !isQuoteChar d) ≠ [])

/-- Scan the `[^"']*` region after `class=["']` for a `\b`-anchored
alternative; `prev` is the previous character (for the word boundary). -/
def classAltScan (alts : List (List Char)) : Char → List Char → Bool
  | _, [] => false
  | prev, c :: cs =>
    if isQuoteChar c then false
    else if !isWordChar prev && classAltAt alts (c :: cs) then true
    else classAltScan alts c cs

/-- `/class=["'][^"']*\b(alt₁|…)[^"']*["']/` (case-sensitive) has a match. -/
def classPattern (alts : List (List Char)) : List Char → Bool
  | [] => false
  | c :: cs =>
    (startsWithCS "class=".data (c :: cs) &&
      (match (c :: cs).drop 6 with
       | q :: qs => isQuoteChar q && classAltScan alts q qs
       | [] => false)) ||
    classPattern alts cs

def tailwindClassAlts : List (List Char) :=
  ["flex".data, "grid".data, "bg-".data, "text-".data, "p-".data, "m-".data,
   "w-".data, "h-".data]

def bootstrapClassAlts : List (List Char) :=
  ["container".data, "row".data, "col-".data, "btn".data, "navbar".data]

/-- The detection rules of `detectTechStack`, in source order. -/
def detectedTechs (headers : String → Option String) (body : String) : List TechSignature :=
  let html := body.data
  (if strIncludes body "__NEXT_DATA__" || strIncludes body "_next/static" then
    [{ name := "Next.js", confidence := "high",
       version := if hasBuildId html then some "detected" else none,
       category := "Framework" }]
   else if strIncludes body "react" || strIncludes body "React" ||
       strIncludes body "_react" || hasSubCI "reactdom".data html ||
       hasSubCI "react.dom".data html || hasSubCI "react-dom".data html then
    [{ name := "React", confidence := "medium", category := "Library" }]
   else []) ++
  (if strIncludes body "__nuxt" || strIncludes body "_nuxt/" then
    [{ name := "Nuxt.js", confidence := "high", category := "Framework" }]
   else if strIncludes body "vue" || strIncludes body "Vue" ||
       hasSubCI "vuejs".data html || hasSubCI "vue.js".data html ||
       hasSubCI "vue-js".data html then
    [{ name := "Vue.js", confidence := "medium", category := "Framework" }]
   else []) ++
  (if strIncludes body "ng-version" || hasNgAttr html then
    [{ name := "Angular", confidence := "high", version := ngVersionCapture html,
       category := "Framework" }]
   else []) ++
  (if strIncludes body "wp-content" || strIncludes body "wp-includes" ||
      strIncludes body "/wordpress/" then
    [{ name := "WordPress", confidence := "high", version := wpThemeVersion html,
       category := "CMS" }]
   else []) ++
  (if strIncludes body "Drupal" || hasSubCI "sites/default/modules".data html ||
      hasSubCI "sites/all/modules".data html then
    [{ name := "Drupal", confidence := "high", category := "CMS" }]
   else []) ++
  (if strIncludes body "__svelte" || hasSvelteScript html then
    [{ name := "Svelte", confidence := "medium", category := "Framework" }]
   else []) ++
  (if hasSubCI "jquery".data html then
    [{ name := "jQuery", confidence := "high", version := jqueryVersionCapture html,
       category := "Library" }]
   else []) ++
  (if strIncludes body "tailwind" || classPattern tailwindClassAlts html then
    [{ name := "Tailwind CSS", confidence := "medium", category := "CSS Framework" }]
   else []) ++
  (if classPattern bootstrapClassAlts html && !strIncludes body "tailwind" then
    [{ name := "Bootstrap", confidence := "low", category := "CSS Framework" }]
   else []) ++
  (match headers "x-powered-by" with
   | some v =>
     if v ≠ "" then [{ name := v, confidence := "high", category := "Server" }] else []
   | none => []) ++
  (match headers "server" with
   | some v =>
     if v ≠ "" then
       match v.splitOn "/" with
       | n :: rest =>
         [{ name := n, confidence := "high", version := rest.head?,
            category := "Web Server" }]
       | [] => []
     else []
   | none => []) ++
  (if jsTruthy (headers "x-aspnet-version") || jsTruthy (headers "x-aspnetmvc-version") then
    [{ name := "ASP.NET", confidence := "high",
       version :=
         match headers "x-aspnet-version" with
         | some v => if v = "" then none else some v
         | none => none,
       category := "Framework" }]
   else [])

def detectTechStack (fetch : FetchOutcome) : TechStackResult :=
  match fetch with
  | .failure msg =>
    { status := .failed, error := some msg, detected := some [], total_detected := some 0 }
  | .success _ headers body =>
    let detected := detectedTechs headers body
    { status := .completed, detected := some detected,
      total_detected := some detected.length }

theorem mem_if_singleton {α : Type _} (a x : α) (c : Prop) [Decidable c] :
    (a ∈ if c then [x] else ([] : List α)) ↔ c ∧ a = x := by
  split_ifs with h <;> simp [h]

theorem mem_if_pair {α : Type _} (a x y : α) (c d : Prop) [Decidable c] [Decidable d] :
    (a ∈ if c then [x] else if d then [y] else ([] : List α)) ↔
      (c ∧ a = x) ∨ (¬c ∧ d ∧ a = y) := by
  split_ifs with h1 h2 <;> simp_all

/-- C8 counterexample: in the body `class="flex row"` both the Tailwind
utility-class pattern and the Bootstrap class pattern match, yet — because
the literal string `tailwind` is absent — the detected list contains **both**
Tailwind CSS and Bootstrap, falsifying the claim that Bootstrap is excluded
whenever both patterns match. -/
theorem techstack_both_patterns_counterexample :
    classPattern tailwindClassAlts "class=\"flex row\"".data = true ∧
    classPattern bootstrapClassAlts "class=\"flex row\"".data = true ∧
    "Tailwind CSS" ∈
      (((detectTechStack (.success 200 (fun _ => none) "class=\"flex row\"")).detected).getD
        []).map TechSignature.name ∧
    "Bootstrap" ∈
      (((detectTechStack (.success 200 (fun _ => none) "class=\"flex row\"")).detected).getD
        []).map TechSignature.name := by
  refine ⟨by decide, by decide, by decide, by decide⟩

/-- C8 (amended): the Bootstrap check is excluded only by the literal string
`tailwind` in the body, not by the Tailwind utility-class pattern: whenever
the body contains `tailwind`, the detected list contains the Tailwind CSS
entry and not the Bootstrap entry; when both class patterns match without the
literal, both entries are detected (see the counterexample). -/
theorem techstack_tailwind_literal_excludes_bootstrap (st : Nat)
    (headers : String → Option String) (body : String)
    (h : strIncludes body "tailwind" = true) :
    ({ name := "Tailwind CSS", confidence := "medium", category := "CSS Framework" } :
        TechSignature) ∈
      ((detectTechStack (.success st headers body)).detected).getD [] ∧
    ({ name := "Bootstrap", confidence := "low", category := "CSS Framework" } :
        TechSignature) ∉
      ((detectTechStack (.success st headers body)).detected).getD [] := by
  constructor
  · simp only [detectTechStack, detectedTechs, Option.getD_some, List.mem_append,
      mem_if_singleton, mem_if_pair, h]
    tauto
  · intro hmem
    simp only [detectTechStack, detectedTechs, Option.getD_some, List.mem_append,
      mem_if_singleton, mem_if_pair, h] at hmem
    rcases hmem with ((((((((((h1 | h1) | h1) | h1) | h1) | h1) | h1) | h1) | h1) | h1) | h1) | h1
    · rcases h1 with ⟨_, h1⟩ | ⟨_, _, h1⟩ <;> simp at h1
    · rcases h1 with ⟨_, h1⟩ | ⟨_, _, h1⟩ <;> simp at h1
    · simp at h1
    · simp at h1
    · simp at h1
    · simp at h1
    · simp at h1
    · simp at h1
    · simp_all
    · revert h1
      match headers "x-powered-by" with
      | some v => simp [mem_if_singleton]
      | none => simp
    · revert h1
      match headers "server" with
      | some v =>
        by_cases hv : v = ""
        · simp [hv]
        · match hsp : v.splitOn "/" with
          | n :: rest => simp [hv, hsp]
          | [] => simp [hv, hsp]
      | none => simp
    · simp at h1

/-! ## Scan orchestrator -/

/-- Per-analyzer orchestrator inputs.  `Except.error ()` models an exception
escaping the analyzer itself, caught by the orchestrator's per-analyzer
`try`/`catch`; `Except.ok` carries the analyzer's own inputs (its fetch
outcome, and for performance the API-key configuration and both strategy
outcomes). -/
structure ScanInputs where
  e2e : Except Unit (FetchOutcome × Option DomParse)
  api : Except Unit FetchOutcome
  security : Except Unit FetchOutcome
  performance : Except Unit (Option String × GoogleOutcome × BasicOutcome)
  accessibility : Except Unit FetchOutcome
  techStack : Except Unit FetchOutcome

/-- The aggregate record returned by the orchestrator: one slot per
analyzer. -/
structure ScanResults where
  e2e : E2EResults
  api : APIResults
  security : SecurityResults
  performance : PerformanceResults
  accessibility : AccessibilityResults
  techStack : TechStackResult

/-- `performScan`: each analyzer runs inside its own try/catch; a thrown
analyzer is converted to a Failed object for that slot only. -/
def performScan (url : String) (inp : ScanInputs) : ScanResults :=
  { e2e :=
      match inp.e2e with
      | .ok (fetch, dom) => performE2EScan fetch dom
      | .error _ => { status := .failed, error := some "E2E scan failed" }
    api :=
      match inp.api with
      | .ok fetch => performAPIScan fetch
      | .error _ => { status := .failed, error := some "API scan failed" }
    security :=
      match inp.security with
      | .ok fetch => performSecurityScan fetch url
      | .error _ => { status := .failed, error := some "Security scan failed" }
    performance :=
      match inp.performance with
      | .ok (key, g, b) => performPerformanceScan key g b
      | .error _ => { status := .failed, error := some "Performance scan failed" }
    accessibility :=
      match inp.accessibility with
      | .ok fetch => performAccessibilityScan fetch
      | .error _ => { status := .failed, error := some "Accessibility scan failed" }
    techStack :=
      match inp.techStack with
      | .ok fetch => detectTechStack fetch
      | .error _ => { status := .failed, error := some "Tech detection failed" } }

theorem performE2EScan_status (fetch : FetchOutcome) (dom : Option DomParse) :
    (performE2EScan fetch dom).status = .completed ∨
      (performE2EScan fetch dom).status = .failed := by
  cases fetch with
  | failure msg => right; rfl
  | success st headers body =>
    by_cases h : respOk st
    · cases dom <;> simp [performE2EScan, h]
    · right
      simp [performE2EScan, Bool.eq_false_iff.mpr h, e2eFailResult]

theorem performAPIScan_status (fetch : FetchOutcome) :
    (performAPIScan fetch).status = .completed ∨ (performAPIScan fetch).status = .failed := by
  cases fetch with
  | failure msg => right; rfl
  | success st headers body => left; rfl

theorem performSecurityScan_status (fetch : FetchOutcome) (url : String) :
    (performSecurityScan fetch url).status = .completed ∨
      (performSecurityScan fetch url).status = .failed := by
  cases fetch with
  | failure msg => right; rfl
  | success st headers body => left; rfl

theorem performPerformanceScan_status (key : Option String) (g : GoogleOutcome)
    (b : BasicOutcome) :
    (performPerformanceScan key g b).status = .completed ∨
      (performPerformanceScan key g b).status = .failed := by
  unfold performPerformanceScan
  split_ifs with hk
  · cases g with
    | success d => left; rfl
    | failure m => cases b with
      | success lt headers body => left; rfl
      | failure m2 => right; rfl
  · cases b with
    | success lt headers body => left; rfl
    | failure m2 => right; rfl

theorem performAccessibilityScan_status (fetch : FetchOutcome) :
    (performAccessibilityScan fetch).status = .completed ∨
      (performAccessibilityScan fetch).status = .failed := by
  cases fetch with
  | failure msg => right; rfl
  | success st headers body => left; rfl

theorem detectTechStack_status (fetch : FetchOutcome) :
    (detectTechStack fetch).status = .completed ∨
      (detectTechStack fetch).status = .failed := by
  cases fetch with
  | failure msg => right; rfl
  | success st headers body => left; rfl

/-- C4: A failure inside any one analyzer is caught at that analyzer's
boundary and recorded as a Failed result for that slot only; the orchestrator
always returns a record with all six slots, each Completed or Failed, and
each slot depends only on its own analyzer's run. -/
theorem orchestrator_isolation_spec (url : String) (inp inp' : ScanInputs) :
    (((performScan url inp).e2e.status = .completed ∨
        (performScan url inp).e2e.status = .failed) ∧
     ((performScan url inp).api.status = .completed ∨
        (performScan url inp).api.status = .failed) ∧
     ((performScan url inp).security.status = .completed ∨
        (performScan url inp).security.status = .failed) ∧
     ((performScan url inp).performance.status = .completed ∨
        (performScan url inp).performance.status = .failed) ∧
     ((performScan url inp).accessibility.status = .completed ∨
        (performScan url inp).accessibility.status = .failed) ∧
     ((performScan url inp).techStack.status = .completed ∨
        (performScan url inp).techStack.status = .failed)) ∧
    ((inp.e2e = .error () →
        (performScan url inp).e2e = { status := .failed, error := some "E2E scan failed" }) ∧
     (inp.api = .error () →
        (performScan url inp).api = { status := .failed, error := some "API scan failed" }) ∧
     (inp.security = .error () →
        (performScan url inp).security =
          { status := .failed, error := some "Security scan failed" }) ∧
     (inp.performance = .error () →
        (performScan url inp).performance =
          { status := .failed, error := some "Performance scan failed" }) ∧
     (inp.accessibility = .error () →
        (performScan url inp).accessibility =
          { status := .failed, error := some "Accessibility scan failed" }) ∧
     (inp.techStack = .error () →
        (performScan url inp).techStack =
          { status := .failed, error := some "Tech detection failed" })) ∧
    ((inp.e2e = inp'.e2e → (performScan url inp).e2e = (performScan url inp').e2e) ∧
     (inp.api = inp'.api → (performScan url inp).api = (performScan url inp').api) ∧
     (inp.security = inp'.security →
        (performScan url inp).security = (performScan url inp').security) ∧
     (inp.performance = inp'.performance →
        (performScan url inp).performance = (performScan url inp').performance) ∧
     (inp.accessibility = inp'.accessibility →
        (performScan url inp).accessibility = (performScan url inp').accessibility) ∧
     (inp.techStack = inp'.techStack →
        (performScan url inp).techStack = (performScan url inp').techStack)) := by
  refine ⟨⟨?_, ?_, ?_, ?_, ?_, ?_⟩, ⟨?_, ?_, ?_, ?_, ?_, ?_⟩, ⟨?_, ?_, ?_, ?_, ?_, ?_⟩⟩
  · match h : inp.e2e with
    | .ok (fetch, dom) => simpa [performScan, h] using performE2EScan_status fetch dom
    | .error u => right; simp [performScan, h]
  · match h : inp.api with
    | .ok fetch => simpa [performScan, h] using performAPIScan_status fetch
    | .error u => right; simp [performScan, h]
  · match h : inp.security with
    | .ok fetch => simpa [performScan, h] using performSecurityScan_status fetch url
    | .error u => right; simp [performScan, h]
  · match h : inp.performance with
    | .ok (key, g, b) => simpa [performScan, h] using performPerformanceScan_status key g b
    | .error u => right; simp [performScan, h]
  · match h : inp.accessibility with
    | .ok fetch => simpa [performScan, h] using performAccessibilityScan_status fetch
    | .error u => right; simp [performScan, h]
  · match h : inp.techStack with
    | .ok fetch => simpa [performScan, h] using detectTechStack_status fetch
    | .error u => right; simp [performScan, h]
  · intro h; simp [performScan, h]
  · intro h; simp [performScan, h]
  · intro h; simp [performScan, h]
  · intro h; simp [performScan, h]
  · intro h; simp [performScan, h]
  · intro h; simp [performScan, h]
  · intro h; simp [performScan, h]
  · intro h; simp [performScan, h]
  · intro h; simp [performScan, h]
  · intro h; simp [performScan, h]
  · intro h; simp [performScan, h]
  · intro h; simp [performScan, h]

/-- The orchestrator input in which every analyzer throws. -/
def allThrowInp : ScanInputs :=
  { e2e := .error (), api := .error (), security := .error (),
    performance := .error (), accessibility := .error (), techStack := .error () }

/-- Witness for C4 at a concrete input where every analyzer throws. -/
theorem orchestrator_isolation_witness :
    ((performScan "https://example.com" allThrowInp).e2e =
       { status := .failed, error := some "E2E scan failed" } ∧
     (performScan "https://example.com" allThrowInp).api =
       { status := .failed, error := some "API scan failed" } ∧
     (performScan "https://example.com" allThrowInp).security =
       { status := .failed, error := some "Security scan failed" } ∧
     (performScan "https://example.com" allThrowInp).performance =
       { status := .failed, error := some "Performance scan failed" } ∧
     (performScan "https://example.com" allThrowInp).accessibility =
       { status := .failed, error := some "Accessibility scan failed" } ∧
     (performScan "https://example.com" allThrowInp).techStack =
       { status := .failed, error := some "Tech detection failed" }) ∧
    ((performScan "https://example.com" allThrowInp).e2e =
       (performScan "https://example.com" allThrowInp).e2e ∧
     (performScan "https://example.com" allThrowInp).security =
       (performScan "https://example.com" allThrowInp).security) ∧
    ((performScan "https://example.com" allThrowInp).e2e.status = .completed ∨
      (performScan "https://example.com" allThrowInp).e2e.status = .failed) := by
  have h := orchestrator_isolation_spec "https://example.com" allThrowInp allThrowInp
  exact ⟨⟨h.2.1.1 rfl, h.2.1.2.1 rfl, h.2.1.2.2.1 rfl, h.2.1.2.2.2.1 rfl,
      h.2.1.2.2.2.2.1 rfl, h.2.1.2.2.2.2.2 rfl⟩,
    ⟨h.2.2.1 rfl, h.2.2.2.2.1 rfl⟩, h.1.1⟩

/-! ## Aggregation: top issues and overall score -/

structure TopIssue where
  category : String
  severity : String
  description : String
deriving DecidableEq, Repr

/-- The `sortOrder` map `{critical: 0, high: 1, medium: 2, low: 3}`. -/
def sortOrderLookup (s : String) : Option Nat :=
  if s = "critical" then some 0
  else if s = "high" then some 1
  else if s = "medium" then some 2
  else if s = "low" then some 3
  else none

/-- `sortOrder[a.severity] || 99`.  Note that `sortOrder["critical"]` is `0`,
which is falsy in JavaScript, so the fallback `99` applies to critical
severities as well — criticals rank after low. -/
def severityRank (s : String) : Nat := jsOrNat (sortOrderLookup s) 99

/-- Projection of a security issue into the `TopIssue` shape. -/
def secTopMap (i : SecIssue) : TopIssue :=
  { category := jsOrStr i.category "Security",
    severity := jsOrStr i.severity "low",
    description := jsOrStr i.description (jsOrStr (i.message.getD "") "") }

/-- Projection of an accessibility issue into the `TopIssue` shape. -/
def accTopMap (i : AccIssue) : TopIssue :=
  { category := "Accessibility",
    severity := jsOrStr i.severity "low",
    description := jsOrStr i.message "" }

/-- The synthetic high-severity performance issue. -/
def perfSynthIssue (s : ℤ) : TopIssue :=
  { category := "Performance", severity := "high",
    description := "Poor performance score (" ++ toString s ++
      "/100) - site loads slowly" }

/-- The flattened issue list before sorting: security issues, then
accessibility issues, then the synthetic performance issue when a defined
performance score is below 50. -/
def topIssuesFlat (r : ScanResults) : List TopIssue :=
  (match r.security.issues with
   | some issues => issues.map secTopMap
   | none => []) ++
  (match r.accessibility.issues with
   | some issues => issues.map accTopMap
   | none => []) ++
  (match r.performance.score with
   | some s => if s < 50 then [perfSynthIssue s] else []
   | none => [])

/-- The comparator `(a, b) => (sortOrder[a.severity] || 99) - (sortOrder[b.severity] || 99)`
as a binary relation. -/
def topLe (a b : TopIssue) : Prop := severityRank a.severity ≤ severityRank b.severity

instance : DecidableRel topLe := fun _ _ => Nat.decLe _ _

instance : IsTotal TopIssue topLe := ⟨fun _ _ => Nat.le_total _ _⟩

instance : IsTrans TopIssue topLe := ⟨fun _ _ _ => Nat.le_trans⟩

/-- `extractTopIssues`: stable ascending sort by severity rank, truncated to
10.  (`Array.prototype.sort` is stable; a stable insertion sort over the weak
order `topLe` produces the identical list.) -/
def extractTopIssues (r : ScanResults) : List TopIssue :=
  (List.insertionSort topLe (topIssuesFlat r)).take 10

/-- Cast an optional natural to an optional rational. -/
def optNatToQ : Option Nat → Option ℚ
  | none => none
  | some n => some ((n : ℚ))

/-- Cast an optional integer to an optional rational. -/
def optIntToQ : Option ℤ → Option ℚ
  | none => none
  | some z => some ((z : ℚ))

/-- `((checks_passed || 0) / (checks_performed || 1)) * 100`. -/
def secSubScore (r : ScanResults) : ℚ :=
  jsOrQ (optNatToQ r.security.checks_passed) 0 /
    jsOrQ (optNatToQ r.security.checks_performed) 1 * 100

/-- `scanResults.performance.score || 0`. -/
def perfSubScore (r : ScanResults) : ℚ :=
  jsOrQ (optIntToQ r.performance.score) 0

/-- `scanResults.accessibility.score || 0`. -/
def accSubScore (r : ScanResults) : ℚ :=
  jsOrQ (optIntToQ r.accessibility.score) 0

/-- `(scanResults.e2e.buttons_found || 0) > 0 ? 80 : 50`. -/
def e2eSubScore (r : ScanResults) : ℚ :=
  if jsOrNat r.e2e.buttons_found 0 > 0 then 80 else 50

/-- `calculateOverallScore`: accumulate `(totalScore, totalWeight)` over the
five weighted analyzers (weights 0.30, 0.25, 0.25, 0.10, 0.10), counting only
Completed ones; `Math.round(totalScore / totalWeight)`, or 0 when no weight
accumulated. -/
def calculateOverallScore (r : ScanResults) : ℤ :=
  let t0 : ℚ × ℚ := (0, 0)
  let t1 := if r.security.status = .completed then
      (t0.1 + secSubScore r * (3/10), t0.2 + 3/10) else t0
  let t2 := if r.performance.status = .completed then
      (t1.1 + perfSubScore r * (1/4), t1.2 + 1/4) else t1
  let t3 := if r.accessibility.status = .completed then
      (t2.1 + accSubScore r * (1/4), t2.2 + 1/4) else t2
  let t4 := if r.e2e.status = .completed then
      (t3.1 + e2eSubScore r * (1/10), t3.2 + 1/10) else t3
  let t5 := if r.api.status = .completed then
      (t4.1 + 70 * (1/10), t4.2 + 1/10) else t4
  if t5.2 > 0 then jsRound (t5.1 / t5.2) else 0

/-- The overall score as C1 words it: the rounded weighted mean over exactly
the analyzers whose status is Completed, with weights
security 0.30, performance 0.25, accessibility 0.25, e2e 0.10, api 0.10, the
security sub-score `checks_passed / checks_performed * 100`, the performance
and accessibility scores, 80/50 for e2e by button presence, the constant 70
for api, and 0 when no analyzer completed. -/
def claimedOverallScore (r : ScanResults) : ℤ :=
  let terms : List (ℚ × ℚ) :=
    (if r.security.status = .completed then
      [(3/10, ((optNatToQ r.security.checks_passed).getD 0 /
        (optNatToQ r.security.checks_performed).getD 0) * 100)] else []) ++
    (if r.performance.status = .completed then
      [(1/4, (optIntToQ r.performance.score).getD 0)] else []) ++
    (if r.accessibility.status = .completed then
      [(1/4, (optIntToQ r.accessibility.score).getD 0)] else []) ++
    (if r.e2e.status = .completed then
      [(1/10, if r.e2e.buttons_found.getD 0 > 0 then (80 : ℚ) else 50)] else []) ++
    (if r.api.status = .completed then [(1/10, (70 : ℚ))] else [])
  let totalWeight := (terms.map Prod.fst).sum
  let totalScore := (terms.map (fun t => t.1 * t.2)).sum
  if totalWeight > 0 then jsRound (totalScore / totalWeight) else 0

/-! ## Flattened convenience fields handed to the persistence layer -/

structure PersistedFlat where
  performance_score : ℤ
  seo_score : ℤ
  accessibility_issue_count : Nat
  security_checks_passed : Nat
  security_checks_total : Nat
  technologies : List String
  exposed_endpoints : List String
deriving DecidableEq, Repr

/-- The flattened fields computed by `processScan` just before the update
call: `security_checks_passed` is recomputed as `max(0, 7 - issues.length)`
from the slot's issue list, not taken from the slot's counters. -/
def flattenForPersist (r : ScanResults) : PersistedFlat :=
  { performance_score :=
      jsOrInt r.performance.score
        (jsOrInt (r.performance.lighthouse_scores.bind LighthouseScores.performance) 0),
    seo_score := jsOrInt (r.performance.lighthouse_scores.bind LighthouseScores.seo) 0,
    accessibility_issue_count := jsOrNat r.accessibility.total_issues 0,
    security_checks_passed := 7 - (r.security.issues.getD []).length,
    security_checks_total := 7,
    technologies := (r.techStack.detected.getD []).map TechSignature.name,
    exposed_endpoints := (r.api.endpoints.getD []).map Endpoint.path }

/-! ## C2: the severity ordering of `extractTopIssues` -/

/-- Response headers leaving only the HSTS security check failing. -/
def c2Headers : String → Option String := fun k =>
  if k = "x-content-type-options" then some "nosniff"
  else if k = "content-security-policy" then some "default-src self"
  else if k = "x-frame-options" then some "DENY"
  else if k = "x-xss-protection" then some "1; mode=block"
  else none

/-- A body producing exactly one critical accessibility issue. -/
def c2Body : String := "<html lang=\"en\"><img src=x><a href=\"#main\">go</a></html>"

/-- A scan whose security analyzer emits one high issue and whose
accessibility analyzer emits one critical issue. -/
def c2Inp : ScanInputs :=
  { e2e := .error (), api := .error (),
    security := .ok (.success 200 c2Headers ""),
    performance := .error (),
    accessibility := .ok (.success 200 (fun _ => none) c2Body),
    techStack := .error () }

/-- C2 fails on the code: `sortOrder["critical"]` is `0`, which the fallback
`|| 99` discards, so critical issues carry rank 99 and sort **after** high,
medium and low issues.  At this concrete scan the returned top issues are the
high security issue followed by the critical accessibility issue — a critical
issue does not precede a high one, contradicting the claimed order. -/
theorem topIssues_critical_after_high :
    extractTopIssues (performScan "https://example.com" c2Inp) =
      [{ category := "Security", severity := "high",
         description := "Missing HSTS header - site vulnerable to protocol downgrade attacks" },
       { category := "Accessibility", severity := "critical",
         description := "1 images missing alt text - screen readers cannot describe images" }] ∧
    severityRank "critical" = 99 ∧ severityRank "high" = 1 := by
  exact ⟨by decide, by decide, by decide⟩

/-! ## C9: the flattened security counters on a failed security scan -/

/-- C9: when the security analyzer itself returns Failed (fetch failure), the
slot records `checks_performed = 0` and `checks_passed = 0` with an empty
issue list, yet the flattened `security_checks_passed` handed to persistence
is recomputed as `max(0, 7 - issues.length) = 7` with
`security_checks_total = 7`. -/
theorem flattened_security_checks_on_failure (url msg : String) (inp : ScanInputs)
    (h : inp.security = Except.ok (FetchOutcome.failure msg)) :
    (performScan url inp).security.status = .failed ∧
    (performScan url inp).security.checks_performed = some 0 ∧
    (performScan url inp).security.checks_passed = some 0 ∧
    (performScan url inp).security.issues = some [] ∧
    (flattenForPersist (performScan url inp)).security_checks_passed = 7 ∧
    (flattenForPersist (performScan url inp)).security_checks_total = 7 := by
  refine ⟨?_, ?_, ?_, ?_, ?_, ?_⟩ <;>
    simp [performScan, h, performSecurityScan, flattenForPersist]

/-- Witness for C9 at a concrete input whose security fetch times out. -/
theorem flattened_security_checks_witness :
    ({ allThrowInp with security := .ok (.failure "timeout") } : ScanInputs).security =
      Except.ok (FetchOutcome.failure "timeout") ∧
    ((performScan "https://example.com"
        { allThrowInp with security := .ok (.failure "timeout") }).security.status = .failed ∧
     (performScan "https://example.com"
        { allThrowInp with security := .ok (.failure "timeout") }).security.checks_performed =
       some 0 ∧
     (performScan "https://example.com"
        { allThrowInp with security := .ok (.failure "timeout") }).security.checks_passed =
       some 0 ∧
     (performScan "https://example.com"
        { allThrowInp with security := .ok (.failure "timeout") }).security.issues = some [] ∧
     (flattenForPersist (performScan "https://example.com"
        { allThrowInp with security := .ok (.failure "timeout") })).security_checks_passed = 7 ∧
     (flattenForPersist (performScan "https://example.com"
        { allThrowInp with security := .ok (.failure "timeout") })).security_checks_total = 7) :=
  ⟨rfl, flattened_security_checks_on_failure "https://example.com" "timeout"
    { allThrowInp with security := .ok (.failure "timeout") } rfl⟩

/-! ## C1: the overall score -/

theorem mkRat_half : (mkRat 1 2 : ℚ) = 1 / 2 := by
  rw [Rat.mkRat_eq_divInt, Rat.divInt_eq_div]
  norm_num

theorem jsRound_bounds (q : ℚ) (h0 : 0 ≤ q) (h1 : q ≤ 100) :
    0 ≤ jsRound q ∧ jsRound q ≤ 100 := by
  unfold jsRound
  constructor
  · exact Rat.le_floor.mpr (by rw [mkRat_half]; push_cast; linarith)
  · by_contra hc
    push_neg at hc
    have h101 : (101 : ℤ) ≤ Rat.floor (q + mkRat 1 2) := hc
    have := Rat.le_floor.mp h101
    rw [mkRat_half] at this
    push_cast at this
    linarith

theorem jsRound_div_range (ts tw : ℚ) (htw : 0 < tw) (hts0 : 0 ≤ ts)
    (hts1 : ts ≤ 100 * tw) :
    0 ≤ jsRound (ts / tw) ∧ jsRound (ts / tw) ≤ 100 := by
  have q0 : 0 ≤ ts / tw := div_nonneg hts0 htw.le
  have q1 : ts / tw ≤ 100 := by rw [div_le_iff₀ htw]; linarith
  exact jsRound_bounds _ q0 q1

theorem jsOrQ_zero_eq_getD (x : Option ℚ) : jsOrQ x 0 = x.getD 0 := by
  cases x with
  | none => rfl
  | some q => by_cases h : q = 0 <;> simp [jsOrQ, h]

theorem jsOrNat_zero_eq_getD (x : Option Nat) : jsOrNat x 0 = x.getD 0 := by
  cases x with
  | none => rfl
  | some n => by_cases h : n = 0 <;> simp [jsOrNat, h]

theorem calculateOverallScore_range (r : ScanResults)
    (hs : 0 ≤ secSubScore r ∧ secSubScore r ≤ 100)
    (hp : 0 ≤ perfSubScore r ∧ perfSubScore r ≤ 100)
    (ha : 0 ≤ accSubScore r ∧ accSubScore r ≤ 100) :
    0 ≤ calculateOverallScore r ∧ calculateOverallScore r ≤ 100 := by
  obtain ⟨hs0, hs1⟩ := hs
  obtain ⟨hp0, hp1⟩ := hp
  obtain ⟨ha0, ha1⟩ := ha
  have he : 0 ≤ e2eSubScore r ∧ e2eSubScore r ≤ 100 := by
    unfold e2eSubScore
    split_ifs <;> norm_num
  obtain ⟨he0, he1⟩ := he
  unfold calculateOverallScore
  by_cases h1 : r.security.status = .completed <;>
  by_cases h2 : r.performance.status = .completed <;>
  by_cases h3 : r.accessibility.status = .completed <;>
  by_cases h4 : r.e2e.status = .completed <;>
  by_cases h5 : r.api.status = .completed <;>
    simp only [h1, h2, h3, h4, h5, if_true, if_false, reduceIte] <;>
    (split_ifs with hw
     · exact jsRound_div_range _ _ hw (by linarith) (by linarith)
     · exact ⟨le_refl 0, by norm_num⟩)

theorem calculateOverallScore_eq_claimed (r : ScanResults)
    (h7 : r.security.status = .completed → r.security.checks_performed = some 7) :
    calculateOverallScore r = claimedOverallScore r := by
  have hperfterm : perfSubScore r = (optIntToQ r.performance.score).getD 0 :=
    jsOrQ_zero_eq_getD _
  have haccterm : accSubScore r = (optIntToQ r.accessibility.score).getD 0 :=
    jsOrQ_zero_eq_getD _
  have he2eterm : e2eSubScore r =
      (if r.e2e.buttons_found.getD 0 > 0 then (80 : ℚ) else 50) := by
    rw [e2eSubScore, jsOrNat_zero_eq_getD]
  unfold calculateOverallScore claimedOverallScore
  by_cases h1 : r.security.status = .completed
  · have hsecterm : secSubScore r =
        ((optNatToQ r.security.checks_passed).getD 0 /
          (optNatToQ r.security.checks_performed).getD 0) * 100 := by
      rw [secSubScore, h7 h1, jsOrQ_zero_eq_getD]
      norm_num [jsOrQ, optNatToQ]
    by_cases h2 : r.performance.status = .completed <;>
    by_cases h3 : r.accessibility.status = .completed <;>
    by_cases h4 : r.e2e.status = .completed <;>
    by_cases h5 : r.api.status = .completed <;>
      simp only [h1, h2, h3, h4, h5, if_true, if_false, reduceIte, List.append_nil,
        List.nil_append, List.map_cons, List.map_nil, List.sum_cons, List.sum_nil,
        List.cons_append, hsecterm, hperfterm, haccterm, he2eterm] <;>
      norm_num <;>
      (try (congr 1 ; ring))
  · by_cases h2 : r.performance.status = .completed <;>
    by_cases h3 : r.accessibility.status = .completed <;>
    by_cases h4 : r.e2e.status = .completed <;>
    by_cases h5 : r.api.status = .completed <;>
      simp only [h1, h2, h3, h4, h5, if_true, if_false, reduceIte, List.append_nil,
        List.nil_append, List.map_cons, List.map_nil, List.sum_cons, List.sum_nil,
        List.cons_append, hperfterm, haccterm, he2eterm] <;>
      norm_num <;>
      (try (congr 1 ; ring))

theorem secSubScore_pipeline_bounds (url : String) (inp : ScanInputs) :
    0 ≤ secSubScore (performScan url inp) ∧ secSubScore (performScan url inp) ≤ 100 := by
  match hs : inp.security with
  | .error u =>
    simp [performScan, hs, secSubScore, jsOrQ, optNatToQ]
  | .ok (.failure m) =>
    simp [performScan, hs, performSecurityScan, secSubScore, jsOrQ, optNatToQ]
  | .ok (.success st headers body) =>
    have hlen := securityIssues_length_le headers body
    simp only [performScan, hs, performSecurityScan, secSubScore, optNatToQ]
    have hden : jsOrQ (some ((7 : Nat) : ℚ)) 1 = 7 := by norm_num [jsOrQ]
    rw [hden, jsOrQ_zero_eq_getD]
    simp only [Option.getD_some]
    have hq0 : (0 : ℚ) ≤ ((7 - (securityIssues headers body).length : ℕ) : ℚ) := by
      positivity
    have hq7 : ((7 - (securityIssues headers body).length : ℕ) : ℚ) ≤ 7 := by
      have : (7 - (securityIssues headers body).length : ℕ) ≤ 7 := Nat.sub_le 7 _
      exact_mod_cast this
    constructor
    · positivity
    · rw [div_mul_eq_mul_div, div_le_iff₀ (by norm_num : (0:ℚ) < 7)]
      linarith

theorem basicDeductions_nonneg (loadTime : ℚ) (ic sc ss : Nat) (g cc : Bool) :
    0 ≤ basicDeductions loadTime ic sc ss g cc := by
  unfold basicDeductions
  split_ifs <;> norm_num

theorem basicScore_bounds (loadTime : ℚ) (ic sc ss : Nat) (g cc : Bool) :
    0 ≤ basicScore loadTime ic sc ss g cc ∧ basicScore loadTime ic sc ss g cc ≤ 100 := by
  rw [basicScore_eq_deductions]
  have hd := basicDeductions_nonneg loadTime ic sc ss g cc
  exact ⟨le_max_left 0 _, max_le (by norm_num) (by linarith)⟩

/-- External page-speed category scores lie in `[0, 1]` (the API contract);
trivially satisfied when the external strategy is not taken. -/
def googleCatInRange (inp : ScanInputs) : Prop :=
  match inp.performance with
  | .ok (_, GoogleOutcome.success d, _) => ∀ c, d.catPerformance = some c → 0 ≤ c ∧ c ≤ 1
  | _ => True

theorem googleScore_bounds (d : PageSpeedData)
    (h : ∀ c, d.catPerformance = some c → 0 ≤ c ∧ c ≤ 1) :
    0 ≤ jsRound (jsOrQ d.catPerformance 0 * 100) ∧
      jsRound (jsOrQ d.catPerformance 0 * 100) ≤ 100 := by
  have hq : 0 ≤ jsOrQ d.catPerformance 0 ∧ jsOrQ d.catPerformance 0 ≤ 1 := by
    cases hc : d.catPerformance with
    | none => simp [jsOrQ]
    | some c =>
      have hcb := h c hc
      by_cases h0 : c = 0
      · simp [jsOrQ, h0]
      · simpa [jsOrQ, h0] using hcb
  exact jsRound_bounds _ (by nlinarith [hq.1]) (by nlinarith [hq.2])

theorem perfSubScore_pipeline_bounds (url : String) (inp : ScanInputs)
    (hg : googleCatInRange inp) :
    0 ≤ perfSubScore (performScan url inp) ∧ perfSubScore (performScan url inp) ≤ 100 := by
  rw [perfSubScore, jsOrQ_zero_eq_getD]
  match hp : inp.performance with
  | .error u => simp [performScan, hp, optIntToQ]
  | .ok (key, g, b) =>
    simp only [performScan, hp]
    unfold performPerformanceScan
    split_ifs with hk
    · match g with
      | .success d =>
        have hcat : ∀ c, d.catPerformance = some c → 0 ≤ c ∧ c ≤ 1 := by
          simpa [googleCatInRange, hp] using hg
        have hb := googleScore_bounds d hcat
        simp only [googlePageSpeedResult, optIntToQ, Option.getD_some]
        exact ⟨by exact_mod_cast hb.1, by exact_mod_cast hb.2⟩
      | .failure m =>
        match b with
        | .success lt headers body =>
          have hb := basicScore_bounds lt (countTag "<img".data body.data)
            (countTag "<script".data body.data) (countStylesheet body.data)
            (hasGzipHeader headers) (jsTruthy (headers "cache-control"))
          simp only [performBasicPerformanceScan, optIntToQ, Option.getD_some]
          exact ⟨by exact_mod_cast hb.1, by exact_mod_cast hb.2⟩
        | .failure m2 => simp [perfFailResult, optIntToQ]
    · match b with
      | .success lt headers body =>
        have hb := basicScore_bounds lt (countTag "<img".data body.data)
          (countTag "<script".data body.data) (countStylesheet body.data)
          (hasGzipHeader headers) (jsTruthy (headers "cache-control"))
        simp only [performBasicPerformanceScan, optIntToQ, Option.getD_some]
        exact ⟨by exact_mod_cast hb.1, by exact_mod_cast hb.2⟩
      | .failure m2 => simp [perfFailResult, optIntToQ]

theorem totalDeduction_nonneg (issues : List AccIssue) : 0 ≤ (totalDeduction issues : ℤ) := by
  positivity

theorem accSubScore_pipeline_bounds (url : String) (inp : ScanInputs) :
    0 ≤ accSubScore (performScan url inp) ∧ accSubScore (performScan url inp) ≤ 100 := by
  rw [accSubScore, jsOrQ_zero_eq_getD]
  match ha : inp.accessibility with
  | .error u => simp [performScan, ha, optIntToQ]
  | .ok (.failure m) => simp [performScan, ha, performAccessibilityScan, optIntToQ]
  | .ok (.success st headers body) =>
    simp only [performScan, ha, performAccessibilityScan, optIntToQ, Option.getD_some]
    have hd := totalDeduction_nonneg (accessibilityIssues body)
    constructor
    · have : (0 : ℤ) ≤ max 0 (100 - (totalDeduction (accessibilityIssues body) : ℤ)) :=
        le_max_left 0 _
      exact_mod_cast this
    · have : max 0 (100 - (totalDeduction (accessibilityIssues body) : ℤ)) ≤ 100 :=
        max_le (by norm_num) (by linarith)
      exact_mod_cast this

theorem performScan_security_checks7 (url : String) (inp : ScanInputs) :
    (performScan url inp).security.status = .completed →
      (performScan url inp).security.checks_performed = some 7 := by
  match hs : inp.security with
  | .error u => intro hc; simp [performScan, hs] at hc
  | .ok (.failure m) => intro hc; simp [performScan, hs, performSecurityScan] at hc
  | .ok (.success st headers body) => intro hc; simp [performScan, hs, performSecurityScan]

/-- C1: for every scan, `overallScore` is an integer in `[0, 100]` equal to
the rounded weighted mean of the sub-scores of exactly the analyzers whose
status is Completed (weights security 0.30, performance 0.25,
accessibility 0.25, e2e 0.10, api 0.10; security sub-score
`checks_passed/checks_performed*100`, performance and accessibility scores,
e2e 80/50 by button presence, api the constant 70); failed or pending
analyzers contribute neither weight nor numerator, and with no completed
analyzer the score is 0.  (External page-speed category scores are assumed in
`[0, 1]` per that API's contract.) -/
theorem overall_score_spec (url : String) (inp : ScanInputs) (hg : googleCatInRange inp) :
    calculateOverallScore (performScan url inp) =
      claimedOverallScore (performScan url inp) ∧
    0 ≤ calculateOverallScore (performScan url inp) ∧
    calculateOverallScore (performScan url inp) ≤ 100 :=
  ⟨calculateOverallScore_eq_claimed _ (performScan_security_checks7 url inp),
   calculateOverallScore_range _ (secSubScore_pipeline_bounds url inp)
     (perfSubScore_pipeline_bounds url inp hg) (accSubScore_pipeline_bounds url inp)⟩

/-- Witness for C1 at a concrete input (every analyzer throws, so no analyzer
completes and the external strategy is unused). -/
theorem overall_score_witness :
    googleCatInRange allThrowInp ∧
    (calculateOverallScore (performScan "https://example.com" allThrowInp) =
       claimedOverallScore (performScan "https://example.com" allThrowInp) ∧
     0 ≤ calculateOverallScore (performScan "https://example.com" allThrowInp) ∧
     calculateOverallScore (performScan "https://example.com" allThrowInp) ≤ 100) :=
  ⟨trivial, overall_score_spec "https://example.com" allThrowInp trivial⟩

/-! ## C10: a failed performance analyzer still produces the synthetic
performance top issue -/

/-- Severity rank at most 1 (i.e. the mapped severity is exactly `high`,
since criticals rank 99). -/
def rankLeOne (t : TopIssue) : Bool := severityRank t.severity ≤ 1

def secHighRank (i : SecIssue) : Bool := severityRank (jsOrStr i.severity "low") ≤ 1

def accHighRank (i : AccIssue) : Bool := severityRank (jsOrStr i.severity "low") ≤ 1

theorem countP_if_zero {α : Type _} (p : α → Bool) (c : Prop) [Decidable c] (x : α)
    (h : p x = false) :
    List.countP p (if c then [x] else []) = 0 := by
  split_ifs <;> simp [List.countP_cons, h]

theorem countP_if_le_one {α : Type _} (p : α → Bool) (c : Prop) [Decidable c] (x : α) :
    List.countP p (if c then [x] else []) ≤ 1 := by
  split_ifs with hc
  · cases hpx : p x <;> simp [List.countP_cons, hpx]
  · simp

theorem countP_if_pair_zero {α : Type _} (p : α → Bool) (c d : Prop) [Decidable c]
    [Decidable d] (x y : α) (hx : p x = false) (hy : p y = false) :
    List.countP p (if c then [x] else if d then [y] else []) = 0 := by
  split_ifs <;> simp [List.countP_cons, hx, hy]

theorem securityIssues_rank_count (headers : String → Option String) (body : String) :
    List.countP secHighRank (securityIssues headers body) ≤ 3 := by
  unfold securityIssues
  split_ifs <;> decide

theorem accessibilityIssues_rank_count (body : String) :
    List.countP accHighRank (accessibilityIssues body) ≤ 3 := by
  unfold accessibilityIssues
  simp only [List.countP_append]
  have h1 : List.countP accHighRank (accImgIssues body.data) = 0 := by
    unfold accImgIssues
    exact countP_if_zero _ _ _ rfl
  have h2 : List.countP accHighRank (accLangIssues body.data) ≤ 1 := by
    unfold accLangIssues
    exact countP_if_le_one _ _ _
  have h3 : List.countP accHighRank (accButtonIssues body.data) = 0 := by
    unfold accButtonIssues
    exact countP_if_zero _ _ _ rfl
  have h4 : List.countP accHighRank (accInputIssues body.data) ≤ 1 := by
    unfold accInputIssues
    exact countP_if_le_one _ _ _
  have h5 : List.countP accHighRank (accH1Issues body.data) = 0 := by
    unfold accH1Issues
    exact countP_if_pair_zero _ _ _ _ _ rfl rfl
  have h6 : List.countP accHighRank (accLinkIssues body.data) ≤ 1 := by
    unfold accLinkIssues
    exact countP_if_le_one _ _ _
  have h7 : List.countP accHighRank (accSkipIssues body.data) = 0 := by
    unfold accSkipIssues
    exact countP_if_zero _ _ _ rfl
  have h8 : List.countP accHighRank (accTabindexIssues body.data) = 0 := by
    unfold accTabindexIssues
    exact countP_if_zero _ _ _ rfl
  omega

theorem countP_secPart (url : String) (inp : ScanInputs) :
    List.countP rankLeOne
      (match (performScan url inp).security.issues with
       | some issues => issues.map secTopMap
       | none => []) ≤ 3 := by
  match hs : inp.security with
  | .error u => simp [performScan, hs]
  | .ok (.failure m) => simp [performScan, hs, performSecurityScan]
  | .ok (.success st headers body) =>
    simp only [performScan, hs, performSecurityScan]
    rw [List.countP_map]
    have hcomp : (rankLeOne ∘ secTopMap) = secHighRank := rfl
    rw [hcomp]
    exact securityIssues_rank_count headers body

theorem countP_accPart (url : String) (inp : ScanInputs) :
    List.countP rankLeOne
      (match (performScan url inp).accessibility.issues with
       | some issues => issues.map accTopMap
       | none => []) ≤ 3 := by
  match ha : inp.accessibility with
  | .error u => simp [performScan, ha]
  | .ok (.failure m) => simp [performScan, ha, performAccessibilityScan]
  | .ok (.success st headers body) =>
    simp only [performScan, ha, performAccessibilityScan]
    rw [List.countP_map]
    have hcomp : (rankLeOne ∘ accTopMap) = accHighRank := rfl
    rw [hcomp]
    exact accessibilityIssues_rank_count body

theorem countP_perfPart (x : Option ℤ) :
    List.countP rankLeOne
      (match x with
       | some s => if s < 50 then [perfSynthIssue s] else []
       | none => []) ≤ 1 := by
  match x with
  | none => simp
  | some s => exact countP_if_le_one _ _ _

theorem topIssuesFlat_rank_count (url : String) (inp : ScanInputs) :
    List.countP rankLeOne (topIssuesFlat (performScan url inp)) ≤ 7 := by
  unfold topIssuesFlat
  rw [List.countP_append, List.countP_append]
  have h1 := countP_secPart url inp
  have h2 := countP_accPart url inp
  have h3 := countP_perfPart ((performScan url inp).performance.score)
  omega

/-- An element of the flattened list whose severity rank bounds the count of
rank-no-larger elements by 10 survives sorting and truncation. -/
theorem mem_extractTopIssues_of_count (r : ScanResults) (x : TopIssue)
    (hx : x ∈ topIssuesFlat r)
    (hcount : List.countP
        (fun y => decide (severityRank y.severity ≤ severityRank x.severity))
        (topIssuesFlat r) ≤ 10) :
    x ∈ extractTopIssues r := by
  unfold extractTopIssues
  have hperm := List.perm_insertionSort topLe (topIssuesFlat r)
  have hsorted : List.Sorted topLe (List.insertionSort topLe (topIssuesFlat r)) :=
    List.sorted_insertionSort topLe (topIssuesFlat r)
  have hxs : x ∈ List.insertionSort topLe (topIssuesFlat r) := hperm.mem_iff.mpr hx
  obtain ⟨s, t, hst⟩ := List.append_of_mem hxs
  have hs_all : ∀ y ∈ s, severityRank y.severity ≤ severityRank x.severity := by
    intro y hy
    have hp : List.Pairwise topLe (s ++ x :: t) := by rw [← hst]; exact hsorted
    rw [List.pairwise_append] at hp
    exact hp.2.2 y hy x (List.mem_cons_self x t)
  have hcountS : List.countP
      (fun y => decide (severityRank y.severity ≤ severityRank x.severity)) s = s.length :=
    List.countP_eq_length.mpr (fun a ha => by simpa using hs_all a ha)
  have hsplit : List.countP
      (fun y => decide (severityRank y.severity ≤ severityRank x.severity))
      (List.insertionSort topLe (topIssuesFlat r)) =
      s.length + List.countP
        (fun y => decide (severityRank y.severity ≤ severityRank x.severity)) (x :: t) := by
    rw [hst, List.countP_append, hcountS]
  have hxone : 1 ≤ List.countP
      (fun y => decide (severityRank y.severity ≤ severityRank x.severity)) (x :: t) := by
    simp [List.countP_cons]
  have hle : s.length + 1 ≤ 10 := by
    have := hperm.countP_eq
      (fun y => decide (severityRank y.severity ≤ severityRank x.severity))
    omega
  rw [hst, List.take_append_eq_append_take]
  have htk : (x :: t).take (10 - s.length) = x :: t.take (10 - s.length - 1) := by
    match h10 : 10 - s.length with
    | 0 => omega
    | k + 1 => simp
  rw [htk]
  exact List.mem_append_right _ (List.mem_cons_self x _)

/-- C10: when the performance analyzer itself returns Failed, its slot still
carries `score = 0`, which is defined and below 50, so Top-Issues Extraction
includes the synthetic high-severity Performance issue
`"Poor performance score (0/100) - site loads slowly"`. -/
theorem failed_performance_top_issue (url : String) (inp : ScanInputs)
    (key : Option String) (g : GoogleOutcome) (b : BasicOutcome)
    (hp : inp.performance = Except.ok (key, g, b))
    (hf : (performPerformanceScan key g b).status = .failed) :
    (performScan url inp).performance.score = some 0 ∧
    perfSynthIssue 0 ∈ extractTopIssues (performScan url inp) := by
  have hfail : ∃ m, performPerformanceScan key g b = perfFailResult m := by
    unfold performPerformanceScan at hf ⊢
    split_ifs at hf ⊢ with hk
    · match g with
      | .success d => exact absurd hf (by simp [googlePageSpeedResult])
      | .failure m =>
        match b with
        | .success lt hd bd => exact absurd hf (by simp [performBasicPerformanceScan])
        | .failure m2 => exact ⟨m2, rfl⟩
    · match b with
      | .success lt hd bd => exact absurd hf (by simp [performBasicPerformanceScan])
      | .failure m2 => exact ⟨m2, rfl⟩
  obtain ⟨m, hm⟩ := hfail
  have hscore : (performScan url inp).performance.score = some 0 := by
    simp [performScan, hp, hm, perfFailResult]
  refine ⟨hscore, ?_⟩
  have hmem : perfSynthIssue 0 ∈ topIssuesFlat (performScan url inp) := by
    unfold topIssuesFlat
    rw [hscore]
    simp
  refine mem_extractTopIssues_of_count _ _ hmem ?_
  exact le_trans (topIssuesFlat_rank_count url inp) (by norm_num)

/-- Witness for C10 at a concrete input whose performance analyzer fails both
strategies. -/
theorem failed_performance_top_issue_witness :
    ({ allThrowInp with
        performance := .ok (none, GoogleOutcome.failure "google down",
          BasicOutcome.failure "net down") } : ScanInputs).performance =
      Except.ok ((none : Option String), GoogleOutcome.failure "google down",
        BasicOutcome.failure "net down") ∧
    (performPerformanceScan none (GoogleOutcome.failure "google down")
      (BasicOutcome.failure "net down")).status = .failed ∧
    ((performScan "https://example.com"
        { allThrowInp with
          performance := .ok (none, GoogleOutcome.failure "google down",
            BasicOutcome.failure "net down") }).performance.score = some 0 ∧
     perfSynthIssue 0 ∈ extractTopIssues (performScan "https://example.com"
        { allThrowInp with
          performance := .ok (none, GoogleOutcome.failure "google down",
            BasicOutcome.failure "net down") })) :=
  ⟨rfl, rfl, failed_performance_top_issue "https://example.com"
    { allThrowInp with
      performance := .ok (none, GoogleOutcome.failure "google down",
        BasicOutcome.failure "net down") }
    none (GoogleOutcome.failure "google down") (BasicOutcome.failure "net down") rfl rfl⟩

/-! ## Witnesses at concrete inputs for the per-analyzer theorems -/

/-- Witness for C3 at a concrete response with no security headers. -/
theorem security_checks_witness :
    (performSecurityScan (.success 200 (fun _ => none) "") "https://example.com").status =
      .completed ∧
    (performSecurityScan (.success 200 (fun _ => none) "") "https://example.com").checks_performed =
      some 7 ∧
    (performSecurityScan (.success 200 (fun _ => none) "") "https://example.com").checks_passed =
      some (7 - (((performSecurityScan (.success 200 (fun _ => none) "")
        "https://example.com").issues).getD []).length) ∧
    (((performSecurityScan (.success 200 (fun _ => none) "")
        "https://example.com").issues).getD []).length ≤ 6 ∧
    (performSecurityScan (.failure "timeout") "https://example.com").checks_performed = some 0 :=
  ⟨(security_checks_spec.1 200 (fun _ => none) "" "https://example.com").1,
   (security_checks_spec.1 200 (fun _ => none) "" "https://example.com").2.1,
   (security_checks_spec.1 200 (fun _ => none) "" "https://example.com").2.2.1,
   (security_checks_spec.1 200 (fun _ => none) "" "https://example.com").2.2.2.1,
   (security_checks_spec.2 "timeout" "https://example.com").2.1⟩

/-- Witness for C5 at a concrete body and a concrete fetch failure. -/
theorem accessibility_score_witness :
    (performAccessibilityScan (.success 200 (fun _ => none) "<html></html>")).status =
      .completed ∧
    (performAccessibilityScan (.success 200 (fun _ => none) "<html></html>")).score =
      some (max 0 (100 - (totalDeduction
        (((performAccessibilityScan (.success 200 (fun _ => none)
          "<html></html>")).issues).getD []) : ℤ))) ∧
    (performAccessibilityScan (.failure "timeout")).status = .failed ∧
    (performAccessibilityScan (.failure "timeout")).score = some 0 ∧
    (performAccessibilityScan (.failure "timeout")).wcag_level = some "Unable to determine" :=
  ⟨(accessibility_score_spec.1 200 (fun _ => none) "<html></html>").1,
   (accessibility_score_spec.1 200 (fun _ => none) "<html></html>").2.1,
   (accessibility_score_spec.2 "timeout").1,
   (accessibility_score_spec.2 "timeout").2.1,
   (accessibility_score_spec.2 "timeout").2.2⟩

/-- Witness for C7: a 404 response is Failed-with-zeroes, and a Completed
scan of a one-button page has at most five non-empty trimmed actions. -/
theorem e2e_failure_and_actions_witness :
    respOk 404 = false ∧
    performE2EScan (.success 404 (fun _ => none) "x") none =
      e2eFailResult ("HTTP " ++ toString 404) ∧
    (performE2EScan (.success 200 (fun _ => none) "<button> Go </button>") none).status =
      .completed ∧
    (∃ acts,
      (performE2EScan (.success 200 (fun _ => none) "<button> Go </button>")
          none).primary_actions = some acts ∧
      acts.length ≤ 5 ∧ ∀ a ∈ acts, a ≠ "" ∧ jsTrim a = a) :=
  ⟨rfl, e2e_failure_and_actions_spec.2.1 404 (fun _ => none) "x" none rfl, rfl,
   e2e_failure_and_actions_spec.2.2
     (.success 200 (fun _ => none) "<button> Go </button>") none rfl⟩

/-- Witness for the amended C8 theorem at a body containing the literal
`tailwind`. -/
theorem techstack_tailwind_witness :
    strIncludes "<link href=tailwind.css>" "tailwind" = true ∧
    (({ name := "Tailwind CSS", confidence := "medium", category := "CSS Framework" } :
        TechSignature) ∈
      ((detectTechStack (.success 200 (fun _ => none)
        "<link href=tailwind.css>")).detected).getD [] ∧
     ({ name := "Bootstrap", confidence := "low", category := "CSS Framework" } :
        TechSignature) ∉
      ((detectTechStack (.success 200 (fun _ => none)
        "<link href=tailwind.css>")).detected).getD []) :=
  ⟨by decide, techstack_tailwind_literal_excludes_bootstrap 200 (fun _ => none)
    "<link href=tailwind.css>" (by decide)⟩

end WebScanner
